import Mathlib

/-!
Verification of `namuplot` (src/namuplot/themes.py) against its specification.

The module is a theme registry for matplotlib: it loads a mapping
theme-name → color palette from a bundled `style.json`, translates every
palette into a fully populated `mpl.RcParams` object (`_build_rcparams`),
and exposes `available` / `get` / `use` / `iter_use` / `context` /
`to_rcparams` over the module-level registry `_DEFAULT_THEMES`.

Shallow embedding conventions:
* Python dicts (palettes, `RcParams`, the registry) are association lists
  `List (String × α)` with insertion-order preservation; `dictSet` is
  `d[k] = v` (update in place if the key exists, append otherwise),
  `dictUpdate` is `dict.update`, `dictLookup` is `d[k]` returning `Option`.
* Matplotlib rcParams values are modelled by the inductive `RcValue`;
  floats are rationals (every constant in the source is decimal-exact).
  Matplotlib's per-key value validation is not modelled: palette values
  are opaque color strings, per the data model of the spec.
* The mutable global `mpl.rcParams` is threaded explicitly as a value of
  type `RcParams`; fallible operations return `Except String`.
* `KeyError(msg)` is modelled by the message string; Python `repr` of a
  name is modelled by `pyRepr`, following CPython's `unicode_repr`:
  quote choice, backslash-escaping of the quote and the backslash,
  \\t/\\n/\\r, and \\xNN for the other control characters
  (U+0000–U+001F, U+007F–U+00A0); printable characters are kept as-is.
-/

namespace Namuplot

/-- A matplotlib rcParams value as stored by `_build_rcparams`. -/
inductive RcValue where
  | str (s : String)
  | bool (b : Bool)
  | num (q : ℚ)
  | strList (l : List String)
  | cycler (colors : List String)
  | intPair (a b : Int)
deriving DecidableEq

/-- A color palette: a JSON object mapping role names to color strings. -/
abbrev Palette := List (String × String)

/-- An `mpl.RcParams` object: a dict from property names to values. -/
abbrev RcParams := List (String × RcValue)

/-- Python dict lookup `d[k]`, `None`-returning (`d.get(k)`). -/
def dictLookup {α : Type} : List (String × α) → String → Option α
  | [], _ => none
  | (k', v) :: rest, k => if k' = k then some v else dictLookup rest k

/-- Python dict item assignment `d[k] = v`: overwrite in place if the key
is present (keeping its position), append otherwise. -/
def dictSet {α : Type} : List (String × α) → String → α → List (String × α)
  | [], k, v => [(k, v)]
  | (k', v') :: rest, k, v =>
      if k' = k then (k, v) :: rest else (k', v') :: dictSet rest k v

/-- Python `d.update(m)`: assign every item of `m` into `d`, in order. -/
def dictUpdate {α : Type} (d m : List (String × α)) : List (String × α) :=
  m.foldl (fun acc kv => dictSet acc kv.1 kv.2) d

/-- The keys of a dict, in insertion order. -/
def dictKeys {α : Type} (d : List (String × α)) : List String :=
  d.map Prod.fst

/-- A named matplotlib theme with associated colors and rcParams
(`@dataclass(frozen=True) class Theme`). -/
structure Theme where
  name : String
  colors : Palette
  rc : RcParams
deriving DecidableEq

/-- The registry type: dict from theme name to `Theme`. -/
abbrev Registry := List (String × Theme)

/-- The body of `_build_rcparams` after the palette lookups have
succeeded: the exact sequence of `rc[...] = ...` assignments of the
source, in source order, starting from an empty `mpl.RcParams()`. -/
def buildRc (text bg gray a b c d e : String) : RcParams :=
  let rc : RcParams := []
  let rc := dictSet rc "figure.facecolor" (RcValue.str bg)
  let rc := dictSet rc "figure.edgecolor" (RcValue.str bg)
  let rc := dictSet rc "savefig.facecolor" (RcValue.str bg)
  let rc := dictSet rc "savefig.edgecolor" (RcValue.str bg)
  let rc := dictSet rc "axes.facecolor" (RcValue.str bg)
  let rc := dictSet rc "axes.edgecolor" (RcValue.str text)
  let rc := dictSet rc "axes.labelcolor" (RcValue.str text)
  let rc := dictSet rc "axes.titlecolor" (RcValue.str text)
  let rc := dictSet rc "text.color" (RcValue.str text)
  let rc := dictSet rc "xtick.color" (RcValue.str text)
  let rc := dictSet rc "ytick.color" (RcValue.str text)
  let rc := dictSet rc "axes.grid" (RcValue.bool true)
  let rc := dictSet rc "grid.color" (RcValue.str text)
  let rc := dictSet rc "grid.alpha" (RcValue.num (3 / 10))
  let rc := dictSet rc "grid.linestyle" (RcValue.str "-")
  let rc := dictSet rc "grid.linewidth" (RcValue.num (4 / 5))
  let rc := dictSet rc "axes.spines.top" (RcValue.bool false)
  let rc := dictSet rc "axes.spines.right" (RcValue.bool false)
  let rc := dictSet rc "lines.linewidth" (RcValue.num 2)
  let rc := dictSet rc "lines.markersize" (RcValue.num 6)
  let rc := dictSet rc "axes.prop_cycle" (RcValue.cycler [a, b, c, d, e])
  let rc := dictSet rc "font.family" (RcValue.str "sans-serif")
  let rc := dictSet rc "font.sans-serif" (RcValue.strList
    ["NanumBarunGothicOTF", "NanumBarunGothic", "NanumGothic",
     "Apple SD Gothic Neo", "Malgun Gothic", "DejaVu Sans"])
  let rc := dictSet rc "legend.frameon" (RcValue.bool false)
  let rc := dictSet rc "axes.unicode_minus" (RcValue.bool false)
  let rc := dictSet rc "axes.formatter.useoffset" (RcValue.bool false)
  let rc := dictSet rc "axes.formatter.limits" (RcValue.intPair (-4) 5)
  let rc := dictSet rc "errorbar.capsize" (RcValue.num 2)
  let rc := dictSet rc "axes.unicode_minus" (RcValue.bool false)
  let rc := dictSet rc "patch.edgecolor" (RcValue.str gray)
  let rc := dictSet rc "boxplot.flierprops.markeredgecolor" (RcValue.str gray)
  rc

/-- `_build_rcparams(colors)`: each `colors[...]` access raises `KeyError`
when the role key is missing (modelled by `none`); the source performs the
`text`/`background`/`gray` lookups up front and the `a`–`e` lookups while
building the color cycle — hoisted here, which preserves the all-or-nothing
result. -/
def _build_rcparams (colors : Palette) : Option RcParams := do
  let text ← dictLookup colors "text"
  let bg ← dictLookup colors "background"
  let gray ← dictLookup colors "gray"
  let a ← dictLookup colors "a"
  let b ← dictLookup colors "b"
  let c ← dictLookup colors "c"
  let d ← dictLookup colors "d"
  let e ← dictLookup colors "e"
  some (buildRc text bg gray a b c d e)

/-- The loop body of `load_themes`: build each theme in file order,
failing the whole load on the first palette whose translation fails. -/
def loadAux : List (String × Palette) → Registry → Option Registry
  | [], themes => some themes
  | (name, colors) :: rest, themes =>
      match _build_rcparams colors with
      | none => none
      | some rc => loadAux rest (dictSet themes name (Theme.mk name colors rc))

/-- `load_themes(configs)`: returns the registry, or fails as a whole
(no partial registry escapes) when any palette fails to translate. -/
def load_themes (configs : List (String × Palette)) : Option Registry :=
  loadAux configs []

/-- The role keys every palette must provide for `_build_rcparams`. -/
def requiredRoleKeys : List String :=
  ["text", "background", "gray", "a", "b", "c", "d", "e"]

/-- Modelled from the spec: the bundled `style.json` data file is not part
of the provided sources. Per the spec it is a JSON object keyed by theme
name (the spec's examples are "light" and "dark"), each value an object
with exactly the keys `text, background, gray, a, b, c, d, e` mapped to
color strings. -/
def lightColors : Palette :=
  [("text", "#222222"), ("background", "#ffffff"), ("gray", "#888888"),
   ("a", "#1f77b4"), ("b", "#ff7f0e"), ("c", "#2ca02c"),
   ("d", "#d62728"), ("e", "#9467bd")]

/-- Modelled from the spec: the "dark" palette of the bundled data file
(see `lightColors`). -/
def darkColors : Palette :=
  [("text", "#eeeeee"), ("background", "#111111"), ("gray", "#777777"),
   ("a", "#8dd3c7"), ("b", "#feffb3"), ("c", "#bfbbd9"),
   ("d", "#fa8174"), ("e", "#81b1d2")]

/-- Modelled from the spec: `_read_default_style()`, the parsed contents
of the bundled `style.json`, in file order. -/
def default_style : List (String × Palette) :=
  [("light", lightColors), ("dark", darkColors)]

/-- `_DEFAULT_THEMES = load_themes(_read_default_style())`; the module
fails to import when the load fails, so the registry is the successful
result. -/
def _DEFAULT_THEMES : Registry := (load_themes default_style).getD []

/-- `available()`: the registry's keys, in registry (file) order. -/
def available : List String := dictKeys _DEFAULT_THEMES

/-- The single-quote character (code point 39). -/
def squote : Char := Char.ofNat 39

/-- The double-quote character (code point 34). -/
def dquote : Char := Char.ofNat 34

/-- The backslash character (code point 92). -/
def bslash : Char := Char.ofNat 92

/-- The horizontal-tab character (code point 9). -/
def tabChar : Char := Char.ofNat 9

/-- The line-feed character (code point 10). -/
def nlChar : Char := Char.ofNat 10

/-- The carriage-return character (code point 13). -/
def crChar : Char := Char.ofNat 13

/-- A lowercase hexadecimal digit. -/
def hexDigit (n : Nat) : Char :=
  if n < 10 then Char.ofNat (48 + n) else Char.ofNat (87 + n)

/-- CPython's quote choice for `repr` of a string: single quotes, unless
the string contains a single quote and no double quote. -/
def pyReprQuote (s : String) : Char :=
  if s.data.contains squote && !(s.data.contains dquote) then dquote else squote

/-- CPython's `repr` rendering of one character under the chosen quote
`q`: the quote itself and the backslash are backslash-escaped; tab,
line feed and carriage return become \\t, \\n, \\r; the remaining control
characters (U+0000–U+001F and U+007F–U+00A0) become \\xNN; printable
characters are kept as-is. -/
def pyReprCharEsc (q c : Char) : List Char :=
  if c = q ∨ c = bslash then [bslash, c]
  else if c = tabChar then [bslash, 't']
  else if c = nlChar then [bslash, 'n']
  else if c = crChar then [bslash, 'r']
  else if c.toNat < 32 ∨ (127 ≤ c.toNat ∧ c.toNat ≤ 160) then
    [bslash, 'x', hexDigit (c.toNat / 16 % 16), hexDigit (c.toNat % 16)]
  else [c]

/-- Python `repr` of a string (CPython `unicode_repr`): the chosen quote
around the escaped rendering of each character. (CPython additionally
escapes the scattered non-printable code points above U+00A0, which this
model keeps as-is.) -/
def pyRepr (s : String) : String :=
  String.mk (pyReprQuote s ::
    s.data.foldr (fun c acc => pyReprCharEsc (pyReprQuote s) c ++ acc) [pyReprQuote s])

/-- Python `str` of a list of strings: `repr` of each element, comma
separated, in square brackets. -/
def pyListRepr (l : List String) : String :=
  "[" ++ String.intercalate ", " (l.map pyRepr) ++ "]"

/-- Python `sorted` on strings: ascending lexicographic order. -/
def sortStrings (l : List String) : List String :=
  List.insertionSort (fun a b => a ≤ b) l

/-- `get(name)` over an explicit registry: exact dict lookup; on a
missing key, `KeyError(f"Unknown theme: {name!r}. Available: {sorted(_DEFAULT_THEMES)}")`. -/
def getR (reg : Registry) (name : String) : Except String Theme :=
  match dictLookup reg name with
  | some t => Except.ok t
  | none => Except.error
      ("Unknown theme: " ++ pyRepr name ++ ". Available: " ++
        pyListRepr (sortStrings (dictKeys reg)))

/-- `get(name)` over the module registry. -/
def get (name : String) : Except String Theme := getR _DEFAULT_THEMES name

/-- `use(name)` over an explicit registry and an explicit global
`mpl.rcParams` state `g`: look the theme up (propagating the failure),
then `mpl.rcParams.update(theme.rc)`, returning the new global state and
the theme. -/
def useR (reg : Registry) (g : RcParams) (name : String) :
    Except String (RcParams × Theme) :=
  match getR reg name with
  | Except.error e => Except.error e
  | Except.ok theme => Except.ok (dictUpdate g theme.rc, theme)

/-- `use(name)` over the module registry. -/
def use (g : RcParams) (name : String) : Except String (RcParams × Theme) :=
  useR _DEFAULT_THEMES g name

/-- Exhaustively iterating the `iter_use` generator over an explicit name
list: for each name in order, `use` it; record each yielded pair together
with the global state at the moment of the yield; on a `use` failure the
error propagates, ending the iteration with the state unrolled-back. -/
def iter_use_runR (reg : Registry) (g : RcParams) :
    List String → List (RcParams × String × Theme) × RcParams × Option String
  | [] => ([], g, none)
  | n :: rest =>
      match useR reg g n with
      | Except.error e => ([], g, some e)
      | Except.ok (g', t) =>
          let out := iter_use_runR reg g' rest
          ((g', n, t) :: out.1, out.2)

/-- Exhaustively iterating `iter_use(names)` over the module registry;
`names=None` iterates `available()` in registry order. -/
def iter_use_run (g : RcParams) (names : Option (List String)) :
    List (RcParams × String × Theme) × RcParams × Option String :=
  iter_use_runR _DEFAULT_THEMES g (names.getD available)

/-- `context(name)` over an explicit registry: `mpl.rc_context(rc=get(name).rc)`
around a scope body. The body is a state transformer on the global
configuration that finishes normally or with an error; `rc_context`
captures the prior state, applies the theme, runs the body, and in a
`finally` block writes every captured item back (`dict.update(rcParams, orig)`),
whatever the body's outcome. -/
def contextR {ε α : Type} (reg : Registry) (g : RcParams) (name : String)
    (body : RcParams → RcParams × Except ε α) :
    Except String (RcParams × Except ε α) :=
  match getR reg name with
  | Except.error e => Except.error e
  | Except.ok t =>
      let res := body (dictUpdate g t.rc)
      Except.ok (dictUpdate res.1 g, res.2)

/-- `context(name)` over the module registry. -/
def context {ε α : Type} (g : RcParams) (name : String)
    (body : RcParams → RcParams × Except ε α) :
    Except String (RcParams × Except ε α) :=
  contextR _DEFAULT_THEMES g name body

/-- A heap of `RcParams` objects, to state object-identity facts about
`to_rcparams`: a reference is an index into the store. -/
abbrev Store := List RcParams

/-- Read the object a reference points to. -/
def storeGet (s : Store) (r : Nat) : Option RcParams := s.get? r

/-- Mutate one key of the object a reference points to, in place. -/
def storeSet : Store → Nat → String → RcValue → Store
  | [], _, _, _ => []
  | rc :: rest, 0, k, v => dictSet rc k v :: rest
  | rc :: rest, r + 1, k, v => rc :: storeSet rest r k v

/-- `to_rcparams(name)` over an explicit registry and object store:
`rc = mpl.RcParams(); rc.update(theme.rc); return rc` — a freshly
allocated object holding a copy of the theme's rcParams. -/
def to_rcparamsR (reg : Registry) (s : Store) (name : String) :
    Except String (Store × Nat) :=
  match getR reg name with
  | Except.error e => Except.error e
  | Except.ok t => Except.ok (s ++ [dictUpdate [] t.rc], s.length)

/-- `to_rcparams(name)` over the module registry. -/
def to_rcparams (s : Store) (name : String) : Except String (Store × Nat) :=
  to_rcparamsR _DEFAULT_THEMES s name

/-- One invocation of a public operation of the module, with its
argument. A `context` invocation carries its scope body. -/
inductive ApiOp where
  | availableOp
  | getOp (n : String)
  | useOp (n : String)
  | iterUseOp (ns : Option (List String))
  | contextOp (n : String) (body : RcParams → RcParams × Except Unit Unit)
  | toRcparamsOp (n : String)

/-- The module's process state: the registry and the global
`mpl.rcParams`. The registry is part of the mutable state here precisely
so that its preservation is a theorem, not a modelling assumption. -/
structure PState where
  reg : Registry
  g : RcParams

/-- Run one public operation against the process state, as the source
does: `available` and `get` only read; `use` and `iter_use` write the
global configuration; `context` writes it during the scope and restores
on exit; `to_rcparams` allocates a fresh copy (the copy store is not part
of `PState`). A raised error leaves the state as it was at the raise. -/
def runOp (st : PState) : ApiOp → PState
  | ApiOp.availableOp => st
  | ApiOp.getOp _ => st
  | ApiOp.useOp n =>
      match useR st.reg st.g n with
      | Except.ok (g', _) => PState.mk st.reg g'
      | Except.error _ => st
  | ApiOp.iterUseOp ns =>
      PState.mk st.reg (iter_use_runR st.reg st.g (ns.getD (dictKeys st.reg))).2.1
  | ApiOp.contextOp n body =>
      match contextR st.reg st.g n body with
      | Except.ok (g', _) => PState.mk st.reg g'
      | Except.error _ => st
  | ApiOp.toRcparamsOp _ => st

/-- Run a sequence of public operations. -/
def runOps (st : PState) (ops : List ApiOp) : PState :=
  ops.foldl runOp st

/-- The `Theme` the registry stores under a name (junk for absent names;
only used under a validity hypothesis). -/
def storedTheme (n : String) : Theme :=
  (dictLookup _DEFAULT_THEMES n).getD (Theme.mk "" [] [])

/-- The global configuration after applying the named themes in order. -/
def stateAfter (g : RcParams) (ns : List String) : RcParams :=
  ns.foldl (fun acc n => dictUpdate acc (storedTheme n).rc) g

/-- The trace an error-free `iter_use` iteration produces: for each name
in order, the global state at the yield (the theme just applied) and the
yielded pair. -/
def traceOf (g : RcParams) : List String → List (RcParams × String × Theme)
  | [] => []
  | n :: rest =>
      (dictUpdate g (storedTheme n).rc, n, storedTheme n) ::
        traceOf (dictUpdate g (storedTheme n).rc) rest

/-- The "light" `Theme` value the modelled registry stores. -/
def lightThemeVal : Theme :=
  Theme.mk "light" lightColors
    (buildRc "#222222" "#ffffff" "#888888"
      "#1f77b4" "#ff7f0e" "#2ca02c" "#d62728" "#9467bd")

/-- The "dark" `Theme` value the modelled registry stores. -/
def darkThemeVal : Theme :=
  Theme.mk "dark" darkColors
    (buildRc "#eeeeee" "#111111" "#777777"
      "#8dd3c7" "#feffb3" "#bfbbd9" "#fa8174" "#81b1d2")

/-- The property keys `_build_rcparams` populates, in assignment order
(`axes.unicode_minus` is assigned twice and keeps its first position). -/
def rcKeyList : List String :=
  ["figure.facecolor", "figure.edgecolor", "savefig.facecolor",
   "savefig.edgecolor", "axes.facecolor", "axes.edgecolor",
   "axes.labelcolor", "axes.titlecolor", "text.color", "xtick.color",
   "ytick.color", "axes.grid", "grid.color", "grid.alpha",
   "grid.linestyle", "grid.linewidth", "axes.spines.top",
   "axes.spines.right", "lines.linewidth", "lines.markersize",
   "axes.prop_cycle", "font.family", "font.sans-serif", "legend.frameon",
   "axes.unicode_minus", "axes.formatter.useoffset",
   "axes.formatter.limits", "errorbar.capsize", "patch.edgecolor",
   "boxplot.flierprops.markeredgecolor"]

/-- The association list `_build_rcparams` produces: each key at its
first-assignment position with its last-assigned value (the repeated
`axes.unicode_minus` assignment writes the same value in place). -/
def rcExplicit (text bg gray a b c d e : String) : RcParams :=
  [("figure.facecolor", RcValue.str bg),
   ("figure.edgecolor", RcValue.str bg),
   ("savefig.facecolor", RcValue.str bg),
   ("savefig.edgecolor", RcValue.str bg),
   ("axes.facecolor", RcValue.str bg),
   ("axes.edgecolor", RcValue.str text),
   ("axes.labelcolor", RcValue.str text),
   ("axes.titlecolor", RcValue.str text),
   ("text.color", RcValue.str text),
   ("xtick.color", RcValue.str text),
   ("ytick.color", RcValue.str text),
   ("axes.grid", RcValue.bool true),
   ("grid.color", RcValue.str text),
   ("grid.alpha", RcValue.num (3 / 10)),
   ("grid.linestyle", RcValue.str "-"),
   ("grid.linewidth", RcValue.num (4 / 5)),
   ("axes.spines.top", RcValue.bool false),
   ("axes.spines.right", RcValue.bool false),
   ("lines.linewidth", RcValue.num 2),
   ("lines.markersize", RcValue.num 6),
   ("axes.prop_cycle", RcValue.cycler [a, b, c, d, e]),
   ("font.family", RcValue.str "sans-serif"),
   ("font.sans-serif", RcValue.strList ["NanumBarunGothicOTF", "NanumBarunGothic", "NanumGothic", "Apple SD Gothic Neo", "Malgun Gothic", "DejaVu Sans"]),
   ("legend.frameon", RcValue.bool false),
   ("axes.unicode_minus", RcValue.bool false),
   ("axes.formatter.useoffset", RcValue.bool false),
   ("axes.formatter.limits", RcValue.intPair (-4) 5),
   ("errorbar.capsize", RcValue.num 2),
   ("patch.edgecolor", RcValue.str gray),
   ("boxplot.flierprops.markeredgecolor", RcValue.str gray)]

/-! ### Dictionary lemmas -/

theorem dictLookup_dictSet_self {α : Type} (l : List (String × α)) (k : String) (v : α) :
    dictLookup (dictSet l k v) k = some v := by
  induction l with
  | nil => simp [dictSet, dictLookup]
  | cons kv rest ih =>
      obtain ⟨k', v'⟩ := kv
      by_cases h : k' = k
      · simp [dictSet, dictLookup, h]
      · simp [dictSet, dictLookup, h, ih]

theorem dictLookup_dictSet_ne {α : Type} (l : List (String × α)) (k k' : String) (v : α)
    (h : k ≠ k') : dictLookup (dictSet l k v) k' = dictLookup l k' := by
  induction l with
  | nil => simp [dictSet, dictLookup, h]
  | cons kv rest ih =>
      obtain ⟨k₀, v₀⟩ := kv
      by_cases h₀ : k₀ = k
      · subst h₀
        simp [dictSet, dictLookup, h]
      · simp [dictSet, dictLookup, h₀, ih]

theorem dictSet_eq_append {α : Type} (l : List (String × α)) (k : String) (v : α)
    (h : k ∉ dictKeys l) : dictSet l k v = l ++ [(k, v)] := by
  induction l with
  | nil => simp [dictSet]
  | cons kv rest ih =>
      obtain ⟨k', v'⟩ := kv
      simp only [dictKeys, List.map_cons, List.mem_cons, not_or] at h
      simp only [dictSet]
      rw [if_neg (fun hh => h.1 hh.symm)]
      simp [ih h.2]

theorem dictSet_same {α : Type} (l : List (String × α)) (k : String) (v : α)
    (h : dictLookup l k = some v) : dictSet l k v = l := by
  induction l with
  | nil => simp [dictLookup] at h
  | cons kv rest ih =>
      obtain ⟨k', v'⟩ := kv
      by_cases hk : k' = k
      · subst hk
        simp only [dictLookup, if_true, eq_self_iff_true, if_pos] at h
        rw [Option.some.injEq] at h
        subst h
        simp [dictSet]
      · simp only [dictLookup, hk, if_false] at h
        simp [dictSet, hk, ih h]

theorem dictLookup_eq_none_of_not_mem {α : Type} (l : List (String × α)) (k : String)
    (h : k ∉ dictKeys l) : dictLookup l k = none := by
  induction l with
  | nil => simp [dictLookup]
  | cons kv rest ih =>
      obtain ⟨k', v'⟩ := kv
      simp only [dictKeys, List.map_cons, List.mem_cons, not_or] at h
      simp only [dictLookup]
      rw [if_neg (fun hh => h.1 hh.symm)]
      exact ih h.2

theorem dictLookup_dictUpdate_of_none {α : Type} (l m : List (String × α)) (k : String)
    (h : dictLookup m k = none) :
    dictLookup (dictUpdate l m) k = dictLookup l k := by
  induction m generalizing l with
  | nil => simp [dictUpdate]
  | cons kv rest ih =>
      obtain ⟨k', v'⟩ := kv
      by_cases hk : k' = k
      · simp [dictLookup, hk] at h
      · simp only [dictLookup, hk, if_false] at h
        show dictLookup (dictUpdate (dictSet l k' v') rest) k = dictLookup l k
        rw [ih (dictSet l k' v') h, dictLookup_dictSet_ne l k' k v' hk]

theorem dictLookup_dictUpdate_of_some {α : Type} (l m : List (String × α)) (k : String)
    (v : α) (hnd : (dictKeys m).Nodup) (h : dictLookup m k = some v) :
    dictLookup (dictUpdate l m) k = some v := by
  induction m generalizing l with
  | nil => simp [dictLookup] at h
  | cons kv rest ih =>
      obtain ⟨k', v'⟩ := kv
      simp only [dictKeys, List.map_cons, List.nodup_cons] at hnd
      by_cases hk : k' = k
      · subst hk
        simp only [dictLookup, if_true, eq_self_iff_true, if_pos] at h
        rw [Option.some.injEq] at h
        subst h
        show dictLookup (dictUpdate (dictSet l k' v') rest) k' = some v'
        rw [dictLookup_dictUpdate_of_none (dictSet l k' v') rest k'
            (dictLookup_eq_none_of_not_mem rest k' hnd.1),
          dictLookup_dictSet_self]
      · simp only [dictLookup, hk, if_false] at h
        show dictLookup (dictUpdate (dictSet l k' v') rest) k = some v
        exact ih (dictSet l k' v') hnd.2 h

/-! ### Facts about the built rcParams and the default registry -/

theorem buildRc_explicit (text bg gray a b c d e : String) :
    buildRc text bg gray a b c d e = rcExplicit text bg gray a b c d e := by
  have h1 : dictSet ([] : RcParams) "figure.facecolor" (RcValue.str bg) = [("figure.facecolor", RcValue.str bg)] := dictSet_eq_append _ _ _ (by simp [dictKeys])
  have h2 : dictSet [("figure.facecolor", RcValue.str bg)] "figure.edgecolor" (RcValue.str bg) = [("figure.facecolor", RcValue.str bg), ("figure.edgecolor", RcValue.str bg)] := dictSet_eq_append _ _ _ (by simp [dictKeys])
  have h3 : dictSet [("figure.facecolor", RcValue.str bg), ("figure.edgecolor", RcValue.str bg)] "savefig.facecolor" (RcValue.str bg) = [("figure.facecolor", RcValue.str bg), ("figure.edgecolor", RcValue.str bg), ("savefig.facecolor", RcValue.str bg)] := dictSet_eq_append _ _ _ (by simp [dictKeys])
  have h4 : dictSet [("figure.facecolor", RcValue.str bg), ("figure.edgecolor", RcValue.str bg), ("savefig.facecolor", RcValue.str bg)] "savefig.edgecolor" (RcValue.str bg) = [("figure.facecolor", RcValue.str bg), ("figure.edgecolor", RcValue.str bg), ("savefig.facecolor", RcValue.str bg), ("savefig.edgecolor", RcValue.str bg)] := dictSet_eq_append _ _ _ (by simp [dictKeys])
  have h5 : dictSet [("figure.facecolor", RcValue.str bg), ("figure.edgecolor", RcValue.str bg), ("savefig.facecolor", RcValue.str bg), ("savefig.edgecolor", RcValue.str bg)] "axes.facecolor" (RcValue.str bg) = [("figure.facecolor", RcValue.str bg), ("figure.edgecolor", RcValue.str bg), ("savefig.facecolor", RcValue.str bg), ("savefig.edgecolor", RcValue.str bg), ("axes.facecolor", RcValue.str bg)] := dictSet_eq_append _ _ _ (by simp [dictKeys])
  have h6 : dictSet [("figure.facecolor", RcValue.str bg), ("figure.edgecolor", RcValue.str bg), ("savefig.facecolor", RcValue.str bg), ("savefig.edgecolor", RcValue.str bg), ("axes.facecolor", RcValue.str bg)] "axes.edgecolor" (RcValue.str text) = [("figure.facecolor", RcValue.str bg), ("figure.edgecolor", RcValue.str bg), ("savefig.facecolor", RcValue.str bg), ("savefig.edgecolor", RcValue.str bg), ("axes.facecolor", RcValue.str bg), ("axes.edgecolor", RcValue.str text)] := dictSet_eq_append _ _ _ (by simp [dictKeys])
  have h7 : dictSet [("figure.facecolor", RcValue.str bg), ("figure.edgecolor", RcValue.str bg), ("savefig.facecolor", RcValue.str bg), ("savefig.edgecolor", RcValue.str bg), ("axes.facecolor", RcValue.str bg), ("axes.edgecolor", RcValue.str text)] "axes.labelcolor" (RcValue.str text) = [("figure.facecolor", RcValue.str bg), ("figure.edgecolor", RcValue.str bg), ("savefig.facecolor", RcValue.str bg), ("savefig.edgecolor", RcValue.str bg), ("axes.facecolor", RcValue.str bg), ("axes.edgecolor", RcValue.str text), ("axes.labelcolor", RcValue.str text)] := dictSet_eq_append _ _ _ (by simp [dictKeys])
  have h8 : dictSet [("figure.facecolor", RcValue.str bg), ("figure.edgecolor", RcValue.str bg), ("savefig.facecolor", RcValue.str bg), ("savefig.edgecolor", RcValue.str bg), ("axes.facecolor", RcValue.str bg), ("axes.edgecolor", RcValue.str text), ("axes.labelcolor", RcValue.str text)] "axes.titlecolor" (RcValue.str text) = [("figure.facecolor", RcValue.str bg), ("figure.edgecolor", RcValue.str bg), ("savefig.facecolor", RcValue.str bg), ("savefig.edgecolor", RcValue.str bg), ("axes.facecolor", RcValue.str bg), ("axes.edgecolor", RcValue.str text), ("axes.labelcolor", RcValue.str text), ("axes.titlecolor", RcValue.str text)] := dictSet_eq_append _ _ _ (by simp [dictKeys])
  have h9 : dictSet [("figure.facecolor", RcValue.str bg), ("figure.edgecolor", RcValue.str bg), ("savefig.facecolor", RcValue.str bg), ("savefig.edgecolor", RcValue.str bg), ("axes.facecolor", RcValue.str bg), ("axes.edgecolor", RcValue.str text), ("axes.labelcolor", RcValue.str text), ("axes.titlecolor", RcValue.str text)] "text.color" (RcValue.str text) = [("figure.facecolor", RcValue.str bg), ("figure.edgecolor", RcValue.str bg), ("savefig.facecolor", RcValue.str bg), ("savefig.edgecolor", RcValue.str bg), ("axes.facecolor", RcValue.str bg), ("axes.edgecolor", RcValue.str text), ("axes.labelcolor", RcValue.str text), ("axes.titlecolor", RcValue.str text), ("text.color", RcValue.str text)] := dictSet_eq_append _ _ _ (by simp [dictKeys])
  have h10 : dictSet [("figure.facecolor", RcValue.str bg), ("figure.edgecolor", RcValue.str bg), ("savefig.facecolor", RcValue.str bg), ("savefig.edgecolor", RcValue.str bg), ("axes.facecolor", RcValue.str bg), ("axes.edgecolor", RcValue.str text), ("axes.labelcolor", RcValue.str text), ("axes.titlecolor", RcValue.str text), ("text.color", RcValue.str text)] "xtick.color" (RcValue.str text) = [("figure.facecolor", RcValue.str bg), ("figure.edgecolor", RcValue.str bg), ("savefig.facecolor", RcValue.str bg), ("savefig.edgecolor", RcValue.str bg), ("axes.facecolor", RcValue.str bg), ("axes.edgecolor", RcValue.str text), ("axes.labelcolor", RcValue.str text), ("axes.titlecolor", RcValue.str text), ("text.color", RcValue.str text), ("xtick.color", RcValue.str text)] := dictSet_eq_append _ _ _ (by simp [dictKeys])
  have h11 : dictSet [("figure.facecolor", RcValue.str bg), ("figure.edgecolor", RcValue.str bg), ("savefig.facecolor", RcValue.str bg), ("savefig.edgecolor", RcValue.str bg), ("axes.facecolor", RcValue.str bg), ("axes.edgecolor", RcValue.str text), ("axes.labelcolor", RcValue.str text), ("axes.titlecolor", RcValue.str text), ("text.color", RcValue.str text), ("xtick.color", RcValue.str text)] "ytick.color" (RcValue.str text) = [("figure.facecolor", RcValue.str bg), ("figure.edgecolor", RcValue.str bg), ("savefig.facecolor", RcValue.str bg), ("savefig.edgecolor", RcValue.str bg), ("axes.facecolor", RcValue.str bg), ("axes.edgecolor", RcValue.str text), ("axes.labelcolor", RcValue.str text), ("axes.titlecolor", RcValue.str text), ("text.color", RcValue.str text), ("xtick.color", RcValue.str text), ("ytick.color", RcValue.str text)] := dictSet_eq_append _ _ _ (by simp [dictKeys])
  have h12 : dictSet [("figure.facecolor", RcValue.str bg), ("figure.edgecolor", RcValue.str bg), ("savefig.facecolor", RcValue.str bg), ("savefig.edgecolor", RcValue.str bg), ("axes.facecolor", RcValue.str bg), ("axes.edgecolor", RcValue.str text), ("axes.labelcolor", RcValue.str text), ("axes.titlecolor", RcValue.str text), ("text.color", RcValue.str text), ("xtick.color", RcValue.str text), ("ytick.color", RcValue.str text)] "axes.grid" (RcValue.bool true) = [("figure.facecolor", RcValue.str bg), ("figure.edgecolor", RcValue.str bg), ("savefig.facecolor", RcValue.str bg), ("savefig.edgecolor", RcValue.str bg), ("axes.facecolor", RcValue.str bg), ("axes.edgecolor", RcValue.str text), ("axes.labelcolor", RcValue.str text), ("axes.titlecolor", RcValue.str text), ("text.color", RcValue.str text), ("xtick.color", RcValue.str text), ("ytick.color", RcValue.str text), ("axes.grid", RcValue.bool true)] := dictSet_eq_append _ _ _ (by simp [dictKeys])
  have h13 : dictSet [("figure.facecolor", RcValue.str bg), ("figure.edgecolor", RcValue.str bg), ("savefig.facecolor", RcValue.str bg), ("savefig.edgecolor", RcValue.str bg), ("axes.facecolor", RcValue.str bg), ("axes.edgecolor", RcValue.str text), ("axes.labelcolor", RcValue.str text), ("axes.titlecolor", RcValue.str text), ("text.color", RcValue.str text), ("xtick.color", RcValue.str text), ("ytick.color", RcValue.str text), ("axes.grid", RcValue.bool true)] "grid.color" (RcValue.str text) = [("figure.facecolor", RcValue.str bg), ("figure.edgecolor", RcValue.str bg), ("savefig.facecolor", RcValue.str bg), ("savefig.edgecolor", RcValue.str bg), ("axes.facecolor", RcValue.str bg), ("axes.edgecolor", RcValue.str text), ("axes.labelcolor", RcValue.str text), ("axes.titlecolor", RcValue.str text), ("text.color", RcValue.str text), ("xtick.color", RcValue.str text), ("ytick.color", RcValue.str text), ("axes.grid", RcValue.bool true), ("grid.color", RcValue.str text)] := dictSet_eq_append _ _ _ (by simp [dictKeys])
  have h14 : dictSet [("figure.facecolor", RcValue.str bg), ("figure.edgecolor", RcValue.str bg), ("savefig.facecolor", RcValue.str bg), ("savefig.edgecolor", RcValue.str bg), ("axes.facecolor", RcValue.str bg), ("axes.edgecolor", RcValue.str text), ("axes.labelcolor", RcValue.str text), ("axes.titlecolor", RcValue.str text), ("text.color", RcValue.str text), ("xtick.color", RcValue.str text), ("ytick.color", RcValue.str text), ("axes.grid", RcValue.bool true), ("grid.color", RcValue.str text)] "grid.alpha" (RcValue.num (3 / 10)) = [("figure.facecolor", RcValue.str bg), ("figure.edgecolor", RcValue.str bg), ("savefig.facecolor", RcValue.str bg), ("savefig.edgecolor", RcValue.str bg), ("axes.facecolor", RcValue.str bg), ("axes.edgecolor", RcValue.str text), ("axes.labelcolor", RcValue.str text), ("axes.titlecolor", RcValue.str text), ("text.color", RcValue.str text), ("xtick.color", RcValue.str text), ("ytick.color", RcValue.str text), ("axes.grid", RcValue.bool true), ("grid.color", RcValue.str text), ("grid.alpha", RcValue.num (3 / 10))] := dictSet_eq_append _ _ _ (by simp [dictKeys])
  have h15 : dictSet [("figure.facecolor", RcValue.str bg), ("figure.edgecolor", RcValue.str bg), ("savefig.facecolor", RcValue.str bg), ("savefig.edgecolor", RcValue.str bg), ("axes.facecolor", RcValue.str bg), ("axes.edgecolor", RcValue.str text), ("axes.labelcolor", RcValue.str text), ("axes.titlecolor", RcValue.str text), ("text.color", RcValue.str text), ("xtick.color", RcValue.str text), ("ytick.color", RcValue.str text), ("axes.grid", RcValue.bool true), ("grid.color", RcValue.str text), ("grid.alpha", RcValue.num (3 / 10))] "grid.linestyle" (RcValue.str "-") = [("figure.facecolor", RcValue.str bg), ("figure.edgecolor", RcValue.str bg), ("savefig.facecolor", RcValue.str bg), ("savefig.edgecolor", RcValue.str bg), ("axes.facecolor", RcValue.str bg), ("axes.edgecolor", RcValue.str text), ("axes.labelcolor", RcValue.str text), ("axes.titlecolor", RcValue.str text), ("text.color", RcValue.str text), ("xtick.color", RcValue.str text), ("ytick.color", RcValue.str text), ("axes.grid", RcValue.bool true), ("grid.color", RcValue.str text), ("grid.alpha", RcValue.num (3 / 10)), ("grid.linestyle", RcValue.str "-")] := dictSet_eq_append _ _ _ (by simp [dictKeys])
  have h16 : dictSet [("figure.facecolor", RcValue.str bg), ("figure.edgecolor", RcValue.str bg), ("savefig.facecolor", RcValue.str bg), ("savefig.edgecolor", RcValue.str bg), ("axes.facecolor", RcValue.str bg), ("axes.edgecolor", RcValue.str text), ("axes.labelcolor", RcValue.str text), ("axes.titlecolor", RcValue.str text), ("text.color", RcValue.str text), ("xtick.color", RcValue.str text), ("ytick.color", RcValue.str text), ("axes.grid", RcValue.bool true), ("grid.color", RcValue.str text), ("grid.alpha", RcValue.num (3 / 10)), ("grid.linestyle", RcValue.str "-")] "grid.linewidth" (RcValue.num (4 / 5)) = [("figure.facecolor", RcValue.str bg), ("figure.edgecolor", RcValue.str bg), ("savefig.facecolor", RcValue.str bg), ("savefig.edgecolor", RcValue.str bg), ("axes.facecolor", RcValue.str bg), ("axes.edgecolor", RcValue.str text), ("axes.labelcolor", RcValue.str text), ("axes.titlecolor", RcValue.str text), ("text.color", RcValue.str text), ("xtick.color", RcValue.str text), ("ytick.color", RcValue.str text), ("axes.grid", RcValue.bool true), ("grid.color", RcValue.str text), ("grid.alpha", RcValue.num (3 / 10)), ("grid.linestyle", RcValue.str "-"), ("grid.linewidth", RcValue.num (4 / 5))] := dictSet_eq_append _ _ _ (by simp [dictKeys])
  have h17 : dictSet [("figure.facecolor", RcValue.str bg), ("figure.edgecolor", RcValue.str bg), ("savefig.facecolor", RcValue.str bg), ("savefig.edgecolor", RcValue.str bg), ("axes.facecolor", RcValue.str bg), ("axes.edgecolor", RcValue.str text), ("axes.labelcolor", RcValue.str text), ("axes.titlecolor", RcValue.str text), ("text.color", RcValue.str text), ("xtick.color", RcValue.str text), ("ytick.color", RcValue.str text), ("axes.grid", RcValue.bool true), ("grid.color", RcValue.str text), ("grid.alpha", RcValue.num (3 / 10)), ("grid.linestyle", RcValue.str "-"), ("grid.linewidth", RcValue.num (4 / 5))] "axes.spines.top" (RcValue.bool false) = [("figure.facecolor", RcValue.str bg), ("figure.edgecolor", RcValue.str bg), ("savefig.facecolor", RcValue.str bg), ("savefig.edgecolor", RcValue.str bg), ("axes.facecolor", RcValue.str bg), ("axes.edgecolor", RcValue.str text), ("axes.labelcolor", RcValue.str text), ("axes.titlecolor", RcValue.str text), ("text.color", RcValue.str text), ("xtick.color", RcValue.str text), ("ytick.color", RcValue.str text), ("axes.grid", RcValue.bool true), ("grid.color", RcValue.str text), ("grid.alpha", RcValue.num (3 / 10)), ("grid.linestyle", RcValue.str "-"), ("grid.linewidth", RcValue.num (4 / 5)), ("axes.spines.top", RcValue.bool false)] := dictSet_eq_append _ _ _ (by simp [dictKeys])
  have h18 : dictSet [("figure.facecolor", RcValue.str bg), ("figure.edgecolor", RcValue.str bg), ("savefig.facecolor", RcValue.str bg), ("savefig.edgecolor", RcValue.str bg), ("axes.facecolor", RcValue.str bg), ("axes.edgecolor", RcValue.str text), ("axes.labelcolor", RcValue.str text), ("axes.titlecolor", RcValue.str text), ("text.color", RcValue.str text), ("xtick.color", RcValue.str text), ("ytick.color", RcValue.str text), ("axes.grid", RcValue.bool true), ("grid.color", RcValue.str text), ("grid.alpha", RcValue.num (3 / 10)), ("grid.linestyle", RcValue.str "-"), ("grid.linewidth", RcValue.num (4 / 5)), ("axes.spines.top", RcValue.bool false)] "axes.spines.right" (RcValue.bool false) = [("figure.facecolor", RcValue.str bg), ("figure.edgecolor", RcValue.str bg), ("savefig.facecolor", RcValue.str bg), ("savefig.edgecolor", RcValue.str bg), ("axes.facecolor", RcValue.str bg), ("axes.edgecolor", RcValue.str text), ("axes.labelcolor", RcValue.str text), ("axes.titlecolor", RcValue.str text), ("text.color", RcValue.str text), ("xtick.color", RcValue.str text), ("ytick.color", RcValue.str text), ("axes.grid", RcValue.bool true), ("grid.color", RcValue.str text), ("grid.alpha", RcValue.num (3 / 10)), ("grid.linestyle", RcValue.str "-"), ("grid.linewidth", RcValue.num (4 / 5)), ("axes.spines.top", RcValue.bool false), ("axes.spines.right", RcValue.bool false)] := dictSet_eq_append _ _ _ (by simp [dictKeys])
  have h19 : dictSet [("figure.facecolor", RcValue.str bg), ("figure.edgecolor", RcValue.str bg), ("savefig.facecolor", RcValue.str bg), ("savefig.edgecolor", RcValue.str bg), ("axes.facecolor", RcValue.str bg), ("axes.edgecolor", RcValue.str text), ("axes.labelcolor", RcValue.str text), ("axes.titlecolor", RcValue.str text), ("text.color", RcValue.str text), ("xtick.color", RcValue.str text), ("ytick.color", RcValue.str text), ("axes.grid", RcValue.bool true), ("grid.color", RcValue.str text), ("grid.alpha", RcValue.num (3 / 10)), ("grid.linestyle", RcValue.str "-"), ("grid.linewidth", RcValue.num (4 / 5)), ("axes.spines.top", RcValue.bool false), ("axes.spines.right", RcValue.bool false)] "lines.linewidth" (RcValue.num 2) = [("figure.facecolor", RcValue.str bg), ("figure.edgecolor", RcValue.str bg), ("savefig.facecolor", RcValue.str bg), ("savefig.edgecolor", RcValue.str bg), ("axes.facecolor", RcValue.str bg), ("axes.edgecolor", RcValue.str text), ("axes.labelcolor", RcValue.str text), ("axes.titlecolor", RcValue.str text), ("text.color", RcValue.str text), ("xtick.color", RcValue.str text), ("ytick.color", RcValue.str text), ("axes.grid", RcValue.bool true), ("grid.color", RcValue.str text), ("grid.alpha", RcValue.num (3 / 10)), ("grid.linestyle", RcValue.str "-"), ("grid.linewidth", RcValue.num (4 / 5)), ("axes.spines.top", RcValue.bool false), ("axes.spines.right", RcValue.bool false), ("lines.linewidth", RcValue.num 2)] := dictSet_eq_append _ _ _ (by simp [dictKeys])
  have h20 : dictSet [("figure.facecolor", RcValue.str bg), ("figure.edgecolor", RcValue.str bg), ("savefig.facecolor", RcValue.str bg), ("savefig.edgecolor", RcValue.str bg), ("axes.facecolor", RcValue.str bg), ("axes.edgecolor", RcValue.str text), ("axes.labelcolor", RcValue.str text), ("axes.titlecolor", RcValue.str text), ("text.color", RcValue.str text), ("xtick.color", RcValue.str text), ("ytick.color", RcValue.str text), ("axes.grid", RcValue.bool true), ("grid.color", RcValue.str text), ("grid.alpha", RcValue.num (3 / 10)), ("grid.linestyle", RcValue.str "-"), ("grid.linewidth", RcValue.num (4 / 5)), ("axes.spines.top", RcValue.bool false), ("axes.spines.right", RcValue.bool false), ("lines.linewidth", RcValue.num 2)] "lines.markersize" (RcValue.num 6) = [("figure.facecolor", RcValue.str bg), ("figure.edgecolor", RcValue.str bg), ("savefig.facecolor", RcValue.str bg), ("savefig.edgecolor", RcValue.str bg), ("axes.facecolor", RcValue.str bg), ("axes.edgecolor", RcValue.str text), ("axes.labelcolor", RcValue.str text), ("axes.titlecolor", RcValue.str text), ("text.color", RcValue.str text), ("xtick.color", RcValue.str text), ("ytick.color", RcValue.str text), ("axes.grid", RcValue.bool true), ("grid.color", RcValue.str text), ("grid.alpha", RcValue.num (3 / 10)), ("grid.linestyle", RcValue.str "-"), ("grid.linewidth", RcValue.num (4 / 5)), ("axes.spines.top", RcValue.bool false), ("axes.spines.right", RcValue.bool false), ("lines.linewidth", RcValue.num 2), ("lines.markersize", RcValue.num 6)] := dictSet_eq_append _ _ _ (by simp [dictKeys])
  have h21 : dictSet [("figure.facecolor", RcValue.str bg), ("figure.edgecolor", RcValue.str bg), ("savefig.facecolor", RcValue.str bg), ("savefig.edgecolor", RcValue.str bg), ("axes.facecolor", RcValue.str bg), ("axes.edgecolor", RcValue.str text), ("axes.labelcolor", RcValue.str text), ("axes.titlecolor", RcValue.str text), ("text.color", RcValue.str text), ("xtick.color", RcValue.str text), ("ytick.color", RcValue.str text), ("axes.grid", RcValue.bool true), ("grid.color", RcValue.str text), ("grid.alpha", RcValue.num (3 / 10)), ("grid.linestyle", RcValue.str "-"), ("grid.linewidth", RcValue.num (4 / 5)), ("axes.spines.top", RcValue.bool false), ("axes.spines.right", RcValue.bool false), ("lines.linewidth", RcValue.num 2), ("lines.markersize", RcValue.num 6)] "axes.prop_cycle" (RcValue.cycler [a, b, c, d, e]) = [("figure.facecolor", RcValue.str bg), ("figure.edgecolor", RcValue.str bg), ("savefig.facecolor", RcValue.str bg), ("savefig.edgecolor", RcValue.str bg), ("axes.facecolor", RcValue.str bg), ("axes.edgecolor", RcValue.str text), ("axes.labelcolor", RcValue.str text), ("axes.titlecolor", RcValue.str text), ("text.color", RcValue.str text), ("xtick.color", RcValue.str text), ("ytick.color", RcValue.str text), ("axes.grid", RcValue.bool true), ("grid.color", RcValue.str text), ("grid.alpha", RcValue.num (3 / 10)), ("grid.linestyle", RcValue.str "-"), ("grid.linewidth", RcValue.num (4 / 5)), ("axes.spines.top", RcValue.bool false), ("axes.spines.right", RcValue.bool false), ("lines.linewidth", RcValue.num 2), ("lines.markersize", RcValue.num 6), ("axes.prop_cycle", RcValue.cycler [a, b, c, d, e])] := dictSet_eq_append _ _ _ (by simp [dictKeys])
  have h22 : dictSet [("figure.facecolor", RcValue.str bg), ("figure.edgecolor", RcValue.str bg), ("savefig.facecolor", RcValue.str bg), ("savefig.edgecolor", RcValue.str bg), ("axes.facecolor", RcValue.str bg), ("axes.edgecolor", RcValue.str text), ("axes.labelcolor", RcValue.str text), ("axes.titlecolor", RcValue.str text), ("text.color", RcValue.str text), ("xtick.color", RcValue.str text), ("ytick.color", RcValue.str text), ("axes.grid", RcValue.bool true), ("grid.color", RcValue.str text), ("grid.alpha", RcValue.num (3 / 10)), ("grid.linestyle", RcValue.str "-"), ("grid.linewidth", RcValue.num (4 / 5)), ("axes.spines.top", RcValue.bool false), ("axes.spines.right", RcValue.bool false), ("lines.linewidth", RcValue.num 2), ("lines.markersize", RcValue.num 6), ("axes.prop_cycle", RcValue.cycler [a, b, c, d, e])] "font.family" (RcValue.str "sans-serif") = [("figure.facecolor", RcValue.str bg), ("figure.edgecolor", RcValue.str bg), ("savefig.facecolor", RcValue.str bg), ("savefig.edgecolor", RcValue.str bg), ("axes.facecolor", RcValue.str bg), ("axes.edgecolor", RcValue.str text), ("axes.labelcolor", RcValue.str text), ("axes.titlecolor", RcValue.str text), ("text.color", RcValue.str text), ("xtick.color", RcValue.str text), ("ytick.color", RcValue.str text), ("axes.grid", RcValue.bool true), ("grid.color", RcValue.str text), ("grid.alpha", RcValue.num (3 / 10)), ("grid.linestyle", RcValue.str "-"), ("grid.linewidth", RcValue.num (4 / 5)), ("axes.spines.top", RcValue.bool false), ("axes.spines.right", RcValue.bool false), ("lines.linewidth", RcValue.num 2), ("lines.markersize", RcValue.num 6), ("axes.prop_cycle", RcValue.cycler [a, b, c, d, e]), ("font.family", RcValue.str "sans-serif")] := dictSet_eq_append _ _ _ (by simp [dictKeys])
  have h23 : dictSet [("figure.facecolor", RcValue.str bg), ("figure.edgecolor", RcValue.str bg), ("savefig.facecolor", RcValue.str bg), ("savefig.edgecolor", RcValue.str bg), ("axes.facecolor", RcValue.str bg), ("axes.edgecolor", RcValue.str text), ("axes.labelcolor", RcValue.str text), ("axes.titlecolor", RcValue.str text), ("text.color", RcValue.str text), ("xtick.color", RcValue.str text), ("ytick.color", RcValue.str text), ("axes.grid", RcValue.bool true), ("grid.color", RcValue.str text), ("grid.alpha", RcValue.num (3 / 10)), ("grid.linestyle", RcValue.str "-"), ("grid.linewidth", RcValue.num (4 / 5)), ("axes.spines.top", RcValue.bool false), ("axes.spines.right", RcValue.bool false), ("lines.linewidth", RcValue.num 2), ("lines.markersize", RcValue.num 6), ("axes.prop_cycle", RcValue.cycler [a, b, c, d, e]), ("font.family", RcValue.str "sans-serif")] "font.sans-serif" (RcValue.strList ["NanumBarunGothicOTF", "NanumBarunGothic", "NanumGothic", "Apple SD Gothic Neo", "Malgun Gothic", "DejaVu Sans"]) = [("figure.facecolor", RcValue.str bg), ("figure.edgecolor", RcValue.str bg), ("savefig.facecolor", RcValue.str bg), ("savefig.edgecolor", RcValue.str bg), ("axes.facecolor", RcValue.str bg), ("axes.edgecolor", RcValue.str text), ("axes.labelcolor", RcValue.str text), ("axes.titlecolor", RcValue.str text), ("text.color", RcValue.str text), ("xtick.color", RcValue.str text), ("ytick.color", RcValue.str text), ("axes.grid", RcValue.bool true), ("grid.color", RcValue.str text), ("grid.alpha", RcValue.num (3 / 10)), ("grid.linestyle", RcValue.str "-"), ("grid.linewidth", RcValue.num (4 / 5)), ("axes.spines.top", RcValue.bool false), ("axes.spines.right", RcValue.bool false), ("lines.linewidth", RcValue.num 2), ("lines.markersize", RcValue.num 6), ("axes.prop_cycle", RcValue.cycler [a, b, c, d, e]), ("font.family", RcValue.str "sans-serif"), ("font.sans-serif", RcValue.strList ["NanumBarunGothicOTF", "NanumBarunGothic", "NanumGothic", "Apple SD Gothic Neo", "Malgun Gothic", "DejaVu Sans"])] := dictSet_eq_append _ _ _ (by simp [dictKeys])
  have h24 : dictSet [("figure.facecolor", RcValue.str bg), ("figure.edgecolor", RcValue.str bg), ("savefig.facecolor", RcValue.str bg), ("savefig.edgecolor", RcValue.str bg), ("axes.facecolor", RcValue.str bg), ("axes.edgecolor", RcValue.str text), ("axes.labelcolor", RcValue.str text), ("axes.titlecolor", RcValue.str text), ("text.color", RcValue.str text), ("xtick.color", RcValue.str text), ("ytick.color", RcValue.str text), ("axes.grid", RcValue.bool true), ("grid.color", RcValue.str text), ("grid.alpha", RcValue.num (3 / 10)), ("grid.linestyle", RcValue.str "-"), ("grid.linewidth", RcValue.num (4 / 5)), ("axes.spines.top", RcValue.bool false), ("axes.spines.right", RcValue.bool false), ("lines.linewidth", RcValue.num 2), ("lines.markersize", RcValue.num 6), ("axes.prop_cycle", RcValue.cycler [a, b, c, d, e]), ("font.family", RcValue.str "sans-serif"), ("font.sans-serif", RcValue.strList ["NanumBarunGothicOTF", "NanumBarunGothic", "NanumGothic", "Apple SD Gothic Neo", "Malgun Gothic", "DejaVu Sans"])] "legend.frameon" (RcValue.bool false) = [("figure.facecolor", RcValue.str bg), ("figure.edgecolor", RcValue.str bg), ("savefig.facecolor", RcValue.str bg), ("savefig.edgecolor", RcValue.str bg), ("axes.facecolor", RcValue.str bg), ("axes.edgecolor", RcValue.str text), ("axes.labelcolor", RcValue.str text), ("axes.titlecolor", RcValue.str text), ("text.color", RcValue.str text), ("xtick.color", RcValue.str text), ("ytick.color", RcValue.str text), ("axes.grid", RcValue.bool true), ("grid.color", RcValue.str text), ("grid.alpha", RcValue.num (3 / 10)), ("grid.linestyle", RcValue.str "-"), ("grid.linewidth", RcValue.num (4 / 5)), ("axes.spines.top", RcValue.bool false), ("axes.spines.right", RcValue.bool false), ("lines.linewidth", RcValue.num 2), ("lines.markersize", RcValue.num 6), ("axes.prop_cycle", RcValue.cycler [a, b, c, d, e]), ("font.family", RcValue.str "sans-serif"), ("font.sans-serif", RcValue.strList ["NanumBarunGothicOTF", "NanumBarunGothic", "NanumGothic", "Apple SD Gothic Neo", "Malgun Gothic", "DejaVu Sans"]), ("legend.frameon", RcValue.bool false)] := dictSet_eq_append _ _ _ (by simp [dictKeys])
  have h25 : dictSet [("figure.facecolor", RcValue.str bg), ("figure.edgecolor", RcValue.str bg), ("savefig.facecolor", RcValue.str bg), ("savefig.edgecolor", RcValue.str bg), ("axes.facecolor", RcValue.str bg), ("axes.edgecolor", RcValue.str text), ("axes.labelcolor", RcValue.str text), ("axes.titlecolor", RcValue.str text), ("text.color", RcValue.str text), ("xtick.color", RcValue.str text), ("ytick.color", RcValue.str text), ("axes.grid", RcValue.bool true), ("grid.color", RcValue.str text), ("grid.alpha", RcValue.num (3 / 10)), ("grid.linestyle", RcValue.str "-"), ("grid.linewidth", RcValue.num (4 / 5)), ("axes.spines.top", RcValue.bool false), ("axes.spines.right", RcValue.bool false), ("lines.linewidth", RcValue.num 2), ("lines.markersize", RcValue.num 6), ("axes.prop_cycle", RcValue.cycler [a, b, c, d, e]), ("font.family", RcValue.str "sans-serif"), ("font.sans-serif", RcValue.strList ["NanumBarunGothicOTF", "NanumBarunGothic", "NanumGothic", "Apple SD Gothic Neo", "Malgun Gothic", "DejaVu Sans"]), ("legend.frameon", RcValue.bool false)] "axes.unicode_minus" (RcValue.bool false) = [("figure.facecolor", RcValue.str bg), ("figure.edgecolor", RcValue.str bg), ("savefig.facecolor", RcValue.str bg), ("savefig.edgecolor", RcValue.str bg), ("axes.facecolor", RcValue.str bg), ("axes.edgecolor", RcValue.str text), ("axes.labelcolor", RcValue.str text), ("axes.titlecolor", RcValue.str text), ("text.color", RcValue.str text), ("xtick.color", RcValue.str text), ("ytick.color", RcValue.str text), ("axes.grid", RcValue.bool true), ("grid.color", RcValue.str text), ("grid.alpha", RcValue.num (3 / 10)), ("grid.linestyle", RcValue.str "-"), ("grid.linewidth", RcValue.num (4 / 5)), ("axes.spines.top", RcValue.bool false), ("axes.spines.right", RcValue.bool false), ("lines.linewidth", RcValue.num 2), ("lines.markersize", RcValue.num 6), ("axes.prop_cycle", RcValue.cycler [a, b, c, d, e]), ("font.family", RcValue.str "sans-serif"), ("font.sans-serif", RcValue.strList ["NanumBarunGothicOTF", "NanumBarunGothic", "NanumGothic", "Apple SD Gothic Neo", "Malgun Gothic", "DejaVu Sans"]), ("legend.frameon", RcValue.bool false), ("axes.unicode_minus", RcValue.bool false)] := dictSet_eq_append _ _ _ (by simp [dictKeys])
  have h26 : dictSet [("figure.facecolor", RcValue.str bg), ("figure.edgecolor", RcValue.str bg), ("savefig.facecolor", RcValue.str bg), ("savefig.edgecolor", RcValue.str bg), ("axes.facecolor", RcValue.str bg), ("axes.edgecolor", RcValue.str text), ("axes.labelcolor", RcValue.str text), ("axes.titlecolor", RcValue.str text), ("text.color", RcValue.str text), ("xtick.color", RcValue.str text), ("ytick.color", RcValue.str text), ("axes.grid", RcValue.bool true), ("grid.color", RcValue.str text), ("grid.alpha", RcValue.num (3 / 10)), ("grid.linestyle", RcValue.str "-"), ("grid.linewidth", RcValue.num (4 / 5)), ("axes.spines.top", RcValue.bool false), ("axes.spines.right", RcValue.bool false), ("lines.linewidth", RcValue.num 2), ("lines.markersize", RcValue.num 6), ("axes.prop_cycle", RcValue.cycler [a, b, c, d, e]), ("font.family", RcValue.str "sans-serif"), ("font.sans-serif", RcValue.strList ["NanumBarunGothicOTF", "NanumBarunGothic", "NanumGothic", "Apple SD Gothic Neo", "Malgun Gothic", "DejaVu Sans"]), ("legend.frameon", RcValue.bool false), ("axes.unicode_minus", RcValue.bool false)] "axes.formatter.useoffset" (RcValue.bool false) = [("figure.facecolor", RcValue.str bg), ("figure.edgecolor", RcValue.str bg), ("savefig.facecolor", RcValue.str bg), ("savefig.edgecolor", RcValue.str bg), ("axes.facecolor", RcValue.str bg), ("axes.edgecolor", RcValue.str text), ("axes.labelcolor", RcValue.str text), ("axes.titlecolor", RcValue.str text), ("text.color", RcValue.str text), ("xtick.color", RcValue.str text), ("ytick.color", RcValue.str text), ("axes.grid", RcValue.bool true), ("grid.color", RcValue.str text), ("grid.alpha", RcValue.num (3 / 10)), ("grid.linestyle", RcValue.str "-"), ("grid.linewidth", RcValue.num (4 / 5)), ("axes.spines.top", RcValue.bool false), ("axes.spines.right", RcValue.bool false), ("lines.linewidth", RcValue.num 2), ("lines.markersize", RcValue.num 6), ("axes.prop_cycle", RcValue.cycler [a, b, c, d, e]), ("font.family", RcValue.str "sans-serif"), ("font.sans-serif", RcValue.strList ["NanumBarunGothicOTF", "NanumBarunGothic", "NanumGothic", "Apple SD Gothic Neo", "Malgun Gothic", "DejaVu Sans"]), ("legend.frameon", RcValue.bool false), ("axes.unicode_minus", RcValue.bool false), ("axes.formatter.useoffset", RcValue.bool false)] := dictSet_eq_append _ _ _ (by simp [dictKeys])
  have h27 : dictSet [("figure.facecolor", RcValue.str bg), ("figure.edgecolor", RcValue.str bg), ("savefig.facecolor", RcValue.str bg), ("savefig.edgecolor", RcValue.str bg), ("axes.facecolor", RcValue.str bg), ("axes.edgecolor", RcValue.str text), ("axes.labelcolor", RcValue.str text), ("axes.titlecolor", RcValue.str text), ("text.color", RcValue.str text), ("xtick.color", RcValue.str text), ("ytick.color", RcValue.str text), ("axes.grid", RcValue.bool true), ("grid.color", RcValue.str text), ("grid.alpha", RcValue.num (3 / 10)), ("grid.linestyle", RcValue.str "-"), ("grid.linewidth", RcValue.num (4 / 5)), ("axes.spines.top", RcValue.bool false), ("axes.spines.right", RcValue.bool false), ("lines.linewidth", RcValue.num 2), ("lines.markersize", RcValue.num 6), ("axes.prop_cycle", RcValue.cycler [a, b, c, d, e]), ("font.family", RcValue.str "sans-serif"), ("font.sans-serif", RcValue.strList ["NanumBarunGothicOTF", "NanumBarunGothic", "NanumGothic", "Apple SD Gothic Neo", "Malgun Gothic", "DejaVu Sans"]), ("legend.frameon", RcValue.bool false), ("axes.unicode_minus", RcValue.bool false), ("axes.formatter.useoffset", RcValue.bool false)] "axes.formatter.limits" (RcValue.intPair (-4) 5) = [("figure.facecolor", RcValue.str bg), ("figure.edgecolor", RcValue.str bg), ("savefig.facecolor", RcValue.str bg), ("savefig.edgecolor", RcValue.str bg), ("axes.facecolor", RcValue.str bg), ("axes.edgecolor", RcValue.str text), ("axes.labelcolor", RcValue.str text), ("axes.titlecolor", RcValue.str text), ("text.color", RcValue.str text), ("xtick.color", RcValue.str text), ("ytick.color", RcValue.str text), ("axes.grid", RcValue.bool true), ("grid.color", RcValue.str text), ("grid.alpha", RcValue.num (3 / 10)), ("grid.linestyle", RcValue.str "-"), ("grid.linewidth", RcValue.num (4 / 5)), ("axes.spines.top", RcValue.bool false), ("axes.spines.right", RcValue.bool false), ("lines.linewidth", RcValue.num 2), ("lines.markersize", RcValue.num 6), ("axes.prop_cycle", RcValue.cycler [a, b, c, d, e]), ("font.family", RcValue.str "sans-serif"), ("font.sans-serif", RcValue.strList ["NanumBarunGothicOTF", "NanumBarunGothic", "NanumGothic", "Apple SD Gothic Neo", "Malgun Gothic", "DejaVu Sans"]), ("legend.frameon", RcValue.bool false), ("axes.unicode_minus", RcValue.bool false), ("axes.formatter.useoffset", RcValue.bool false), ("axes.formatter.limits", RcValue.intPair (-4) 5)] := dictSet_eq_append _ _ _ (by simp [dictKeys])
  have h28 : dictSet [("figure.facecolor", RcValue.str bg), ("figure.edgecolor", RcValue.str bg), ("savefig.facecolor", RcValue.str bg), ("savefig.edgecolor", RcValue.str bg), ("axes.facecolor", RcValue.str bg), ("axes.edgecolor", RcValue.str text), ("axes.labelcolor", RcValue.str text), ("axes.titlecolor", RcValue.str text), ("text.color", RcValue.str text), ("xtick.color", RcValue.str text), ("ytick.color", RcValue.str text), ("axes.grid", RcValue.bool true), ("grid.color", RcValue.str text), ("grid.alpha", RcValue.num (3 / 10)), ("grid.linestyle", RcValue.str "-"), ("grid.linewidth", RcValue.num (4 / 5)), ("axes.spines.top", RcValue.bool false), ("axes.spines.right", RcValue.bool false), ("lines.linewidth", RcValue.num 2), ("lines.markersize", RcValue.num 6), ("axes.prop_cycle", RcValue.cycler [a, b, c, d, e]), ("font.family", RcValue.str "sans-serif"), ("font.sans-serif", RcValue.strList ["NanumBarunGothicOTF", "NanumBarunGothic", "NanumGothic", "Apple SD Gothic Neo", "Malgun Gothic", "DejaVu Sans"]), ("legend.frameon", RcValue.bool false), ("axes.unicode_minus", RcValue.bool false), ("axes.formatter.useoffset", RcValue.bool false), ("axes.formatter.limits", RcValue.intPair (-4) 5)] "errorbar.capsize" (RcValue.num 2) = [("figure.facecolor", RcValue.str bg), ("figure.edgecolor", RcValue.str bg), ("savefig.facecolor", RcValue.str bg), ("savefig.edgecolor", RcValue.str bg), ("axes.facecolor", RcValue.str bg), ("axes.edgecolor", RcValue.str text), ("axes.labelcolor", RcValue.str text), ("axes.titlecolor", RcValue.str text), ("text.color", RcValue.str text), ("xtick.color", RcValue.str text), ("ytick.color", RcValue.str text), ("axes.grid", RcValue.bool true), ("grid.color", RcValue.str text), ("grid.alpha", RcValue.num (3 / 10)), ("grid.linestyle", RcValue.str "-"), ("grid.linewidth", RcValue.num (4 / 5)), ("axes.spines.top", RcValue.bool false), ("axes.spines.right", RcValue.bool false), ("lines.linewidth", RcValue.num 2), ("lines.markersize", RcValue.num 6), ("axes.prop_cycle", RcValue.cycler [a, b, c, d, e]), ("font.family", RcValue.str "sans-serif"), ("font.sans-serif", RcValue.strList ["NanumBarunGothicOTF", "NanumBarunGothic", "NanumGothic", "Apple SD Gothic Neo", "Malgun Gothic", "DejaVu Sans"]), ("legend.frameon", RcValue.bool false), ("axes.unicode_minus", RcValue.bool false), ("axes.formatter.useoffset", RcValue.bool false), ("axes.formatter.limits", RcValue.intPair (-4) 5), ("errorbar.capsize", RcValue.num 2)] := dictSet_eq_append _ _ _ (by simp [dictKeys])
  have h29 : dictSet [("figure.facecolor", RcValue.str bg), ("figure.edgecolor", RcValue.str bg), ("savefig.facecolor", RcValue.str bg), ("savefig.edgecolor", RcValue.str bg), ("axes.facecolor", RcValue.str bg), ("axes.edgecolor", RcValue.str text), ("axes.labelcolor", RcValue.str text), ("axes.titlecolor", RcValue.str text), ("text.color", RcValue.str text), ("xtick.color", RcValue.str text), ("ytick.color", RcValue.str text), ("axes.grid", RcValue.bool true), ("grid.color", RcValue.str text), ("grid.alpha", RcValue.num (3 / 10)), ("grid.linestyle", RcValue.str "-"), ("grid.linewidth", RcValue.num (4 / 5)), ("axes.spines.top", RcValue.bool false), ("axes.spines.right", RcValue.bool false), ("lines.linewidth", RcValue.num 2), ("lines.markersize", RcValue.num 6), ("axes.prop_cycle", RcValue.cycler [a, b, c, d, e]), ("font.family", RcValue.str "sans-serif"), ("font.sans-serif", RcValue.strList ["NanumBarunGothicOTF", "NanumBarunGothic", "NanumGothic", "Apple SD Gothic Neo", "Malgun Gothic", "DejaVu Sans"]), ("legend.frameon", RcValue.bool false), ("axes.unicode_minus", RcValue.bool false), ("axes.formatter.useoffset", RcValue.bool false), ("axes.formatter.limits", RcValue.intPair (-4) 5), ("errorbar.capsize", RcValue.num 2)] "axes.unicode_minus" (RcValue.bool false) = [("figure.facecolor", RcValue.str bg), ("figure.edgecolor", RcValue.str bg), ("savefig.facecolor", RcValue.str bg), ("savefig.edgecolor", RcValue.str bg), ("axes.facecolor", RcValue.str bg), ("axes.edgecolor", RcValue.str text), ("axes.labelcolor", RcValue.str text), ("axes.titlecolor", RcValue.str text), ("text.color", RcValue.str text), ("xtick.color", RcValue.str text), ("ytick.color", RcValue.str text), ("axes.grid", RcValue.bool true), ("grid.color", RcValue.str text), ("grid.alpha", RcValue.num (3 / 10)), ("grid.linestyle", RcValue.str "-"), ("grid.linewidth", RcValue.num (4 / 5)), ("axes.spines.top", RcValue.bool false), ("axes.spines.right", RcValue.bool false), ("lines.linewidth", RcValue.num 2), ("lines.markersize", RcValue.num 6), ("axes.prop_cycle", RcValue.cycler [a, b, c, d, e]), ("font.family", RcValue.str "sans-serif"), ("font.sans-serif", RcValue.strList ["NanumBarunGothicOTF", "NanumBarunGothic", "NanumGothic", "Apple SD Gothic Neo", "Malgun Gothic", "DejaVu Sans"]), ("legend.frameon", RcValue.bool false), ("axes.unicode_minus", RcValue.bool false), ("axes.formatter.useoffset", RcValue.bool false), ("axes.formatter.limits", RcValue.intPair (-4) 5), ("errorbar.capsize", RcValue.num 2)] := dictSet_same _ _ _ (by simp [dictLookup])
  have h30 : dictSet [("figure.facecolor", RcValue.str bg), ("figure.edgecolor", RcValue.str bg), ("savefig.facecolor", RcValue.str bg), ("savefig.edgecolor", RcValue.str bg), ("axes.facecolor", RcValue.str bg), ("axes.edgecolor", RcValue.str text), ("axes.labelcolor", RcValue.str text), ("axes.titlecolor", RcValue.str text), ("text.color", RcValue.str text), ("xtick.color", RcValue.str text), ("ytick.color", RcValue.str text), ("axes.grid", RcValue.bool true), ("grid.color", RcValue.str text), ("grid.alpha", RcValue.num (3 / 10)), ("grid.linestyle", RcValue.str "-"), ("grid.linewidth", RcValue.num (4 / 5)), ("axes.spines.top", RcValue.bool false), ("axes.spines.right", RcValue.bool false), ("lines.linewidth", RcValue.num 2), ("lines.markersize", RcValue.num 6), ("axes.prop_cycle", RcValue.cycler [a, b, c, d, e]), ("font.family", RcValue.str "sans-serif"), ("font.sans-serif", RcValue.strList ["NanumBarunGothicOTF", "NanumBarunGothic", "NanumGothic", "Apple SD Gothic Neo", "Malgun Gothic", "DejaVu Sans"]), ("legend.frameon", RcValue.bool false), ("axes.unicode_minus", RcValue.bool false), ("axes.formatter.useoffset", RcValue.bool false), ("axes.formatter.limits", RcValue.intPair (-4) 5), ("errorbar.capsize", RcValue.num 2)] "patch.edgecolor" (RcValue.str gray) = [("figure.facecolor", RcValue.str bg), ("figure.edgecolor", RcValue.str bg), ("savefig.facecolor", RcValue.str bg), ("savefig.edgecolor", RcValue.str bg), ("axes.facecolor", RcValue.str bg), ("axes.edgecolor", RcValue.str text), ("axes.labelcolor", RcValue.str text), ("axes.titlecolor", RcValue.str text), ("text.color", RcValue.str text), ("xtick.color", RcValue.str text), ("ytick.color", RcValue.str text), ("axes.grid", RcValue.bool true), ("grid.color", RcValue.str text), ("grid.alpha", RcValue.num (3 / 10)), ("grid.linestyle", RcValue.str "-"), ("grid.linewidth", RcValue.num (4 / 5)), ("axes.spines.top", RcValue.bool false), ("axes.spines.right", RcValue.bool false), ("lines.linewidth", RcValue.num 2), ("lines.markersize", RcValue.num 6), ("axes.prop_cycle", RcValue.cycler [a, b, c, d, e]), ("font.family", RcValue.str "sans-serif"), ("font.sans-serif", RcValue.strList ["NanumBarunGothicOTF", "NanumBarunGothic", "NanumGothic", "Apple SD Gothic Neo", "Malgun Gothic", "DejaVu Sans"]), ("legend.frameon", RcValue.bool false), ("axes.unicode_minus", RcValue.bool false), ("axes.formatter.useoffset", RcValue.bool false), ("axes.formatter.limits", RcValue.intPair (-4) 5), ("errorbar.capsize", RcValue.num 2), ("patch.edgecolor", RcValue.str gray)] := dictSet_eq_append _ _ _ (by simp [dictKeys])
  have h31 : dictSet [("figure.facecolor", RcValue.str bg), ("figure.edgecolor", RcValue.str bg), ("savefig.facecolor", RcValue.str bg), ("savefig.edgecolor", RcValue.str bg), ("axes.facecolor", RcValue.str bg), ("axes.edgecolor", RcValue.str text), ("axes.labelcolor", RcValue.str text), ("axes.titlecolor", RcValue.str text), ("text.color", RcValue.str text), ("xtick.color", RcValue.str text), ("ytick.color", RcValue.str text), ("axes.grid", RcValue.bool true), ("grid.color", RcValue.str text), ("grid.alpha", RcValue.num (3 / 10)), ("grid.linestyle", RcValue.str "-"), ("grid.linewidth", RcValue.num (4 / 5)), ("axes.spines.top", RcValue.bool false), ("axes.spines.right", RcValue.bool false), ("lines.linewidth", RcValue.num 2), ("lines.markersize", RcValue.num 6), ("axes.prop_cycle", RcValue.cycler [a, b, c, d, e]), ("font.family", RcValue.str "sans-serif"), ("font.sans-serif", RcValue.strList ["NanumBarunGothicOTF", "NanumBarunGothic", "NanumGothic", "Apple SD Gothic Neo", "Malgun Gothic", "DejaVu Sans"]), ("legend.frameon", RcValue.bool false), ("axes.unicode_minus", RcValue.bool false), ("axes.formatter.useoffset", RcValue.bool false), ("axes.formatter.limits", RcValue.intPair (-4) 5), ("errorbar.capsize", RcValue.num 2), ("patch.edgecolor", RcValue.str gray)] "boxplot.flierprops.markeredgecolor" (RcValue.str gray) = [("figure.facecolor", RcValue.str bg), ("figure.edgecolor", RcValue.str bg), ("savefig.facecolor", RcValue.str bg), ("savefig.edgecolor", RcValue.str bg), ("axes.facecolor", RcValue.str bg), ("axes.edgecolor", RcValue.str text), ("axes.labelcolor", RcValue.str text), ("axes.titlecolor", RcValue.str text), ("text.color", RcValue.str text), ("xtick.color", RcValue.str text), ("ytick.color", RcValue.str text), ("axes.grid", RcValue.bool true), ("grid.color", RcValue.str text), ("grid.alpha", RcValue.num (3 / 10)), ("grid.linestyle", RcValue.str "-"), ("grid.linewidth", RcValue.num (4 / 5)), ("axes.spines.top", RcValue.bool false), ("axes.spines.right", RcValue.bool false), ("lines.linewidth", RcValue.num 2), ("lines.markersize", RcValue.num 6), ("axes.prop_cycle", RcValue.cycler [a, b, c, d, e]), ("font.family", RcValue.str "sans-serif"), ("font.sans-serif", RcValue.strList ["NanumBarunGothicOTF", "NanumBarunGothic", "NanumGothic", "Apple SD Gothic Neo", "Malgun Gothic", "DejaVu Sans"]), ("legend.frameon", RcValue.bool false), ("axes.unicode_minus", RcValue.bool false), ("axes.formatter.useoffset", RcValue.bool false), ("axes.formatter.limits", RcValue.intPair (-4) 5), ("errorbar.capsize", RcValue.num 2), ("patch.edgecolor", RcValue.str gray), ("boxplot.flierprops.markeredgecolor", RcValue.str gray)] := dictSet_eq_append _ _ _ (by simp [dictKeys])
  simp only [buildRc, rcExplicit, h1, h2, h3, h4, h5, h6, h7, h8, h9, h10, h11, h12, h13, h14, h15, h16, h17, h18, h19, h20, h21, h22, h23, h24, h25, h26, h27, h28, h29, h30, h31]

theorem dictKeys_rcExplicit (text bg gray a b c d e : String) :
    dictKeys (rcExplicit text bg gray a b c d e) = rcKeyList := rfl

theorem rcKeyList_nodup : rcKeyList.Nodup := by decide

theorem buildRc_keys_nodup (text bg gray a b c d e : String) :
    (dictKeys (buildRc text bg gray a b c d e)).Nodup := by
  rw [buildRc_explicit, dictKeys_rcExplicit]
  exact rcKeyList_nodup

theorem default_registry_eq :
    _DEFAULT_THEMES = [("light", lightThemeVal), ("dark", darkThemeVal)] := rfl

/-- Characterization of a successful lookup in the modelled default
registry. -/
theorem default_lookup (n : String) (t : Theme)
    (h : dictLookup _DEFAULT_THEMES n = some t) :
    (n = "light" ∧ t = lightThemeVal) ∨ (n = "dark" ∧ t = darkThemeVal) := by
  rw [default_registry_eq] at h
  by_cases h₁ : "light" = n
  · left
    simp only [dictLookup, if_pos h₁, Option.some.injEq] at h
    exact ⟨h₁.symm, h.symm⟩
  · right
    simp only [dictLookup, if_neg h₁] at h
    by_cases h₂ : "dark" = n
    · simp only [if_pos h₂, Option.some.injEq] at h
      exact ⟨h₂.symm, h.symm⟩
    · simp [if_neg h₂] at h

theorem storedTheme_eq (n : String) (t : Theme)
    (h : dictLookup _DEFAULT_THEMES n = some t) : storedTheme n = t := by
  simp [storedTheme, h]

theorem build_lightColors :
    _build_rcparams lightColors =
      some (buildRc "#222222" "#ffffff" "#888888"
        "#1f77b4" "#ff7f0e" "#2ca02c" "#d62728" "#9467bd") := by
  simp [_build_rcparams, lightColors, dictLookup]

theorem build_darkColors :
    _build_rcparams darkColors =
      some (buildRc "#eeeeee" "#111111" "#777777"
        "#8dd3c7" "#feffb3" "#bfbbd9" "#fa8174" "#81b1d2") := by
  simp [_build_rcparams, darkColors, dictLookup]

/-- Every theme stored in the default registry: its name is its key, its
rcParams come from its palette, and its rcParams keys are duplicate-free. -/
theorem default_theme_wf (n : String) (t : Theme)
    (h : dictLookup _DEFAULT_THEMES n = some t) :
    t.name = n ∧ _build_rcparams t.colors = some t.rc ∧
      (dictKeys t.rc).Nodup := by
  rcases default_lookup n t h with ⟨hn, ht⟩ | ⟨hn, ht⟩ <;> subst hn <;> subst ht
  · refine ⟨rfl, ?_, ?_⟩
    · simp only [lightThemeVal]
      exact build_lightColors
    · simp only [lightThemeVal]
      exact buildRc_keys_nodup _ _ _ _ _ _ _ _
  · refine ⟨rfl, ?_, ?_⟩
    · simp only [darkThemeVal]
      exact build_darkColors
    · simp only [darkThemeVal]
      exact buildRc_keys_nodup _ _ _ _ _ _ _ _

theorem dictKeys_default : dictKeys _DEFAULT_THEMES = ["light", "dark"] := by
  rw [default_registry_eq]
  rfl

theorem available_eq : available = ["light", "dark"] := by
  simp [available, dictKeys_default]

theorem lookup_light : dictLookup _DEFAULT_THEMES "light" = some lightThemeVal := by
  rw [default_registry_eq]
  simp [dictLookup]

theorem lookup_dark : dictLookup _DEFAULT_THEMES "dark" = some darkThemeVal := by
  rw [default_registry_eq]
  simp [dictLookup]

/-- C4: for every palette containing all required role keys, the
translation produces a style-configuration with grid lines enabled,
grid color the palette's `text` value, grid opacity exactly 0.30 (= 3/10),
solid grid line style, grid width 0.8 (= 4/5); top and right spines
disabled; default line width 2.0 and marker size 6; and the default color
cycle exactly `[a, b, c, d, e]` in that order. -/
theorem build_rcparams_styles (p : Palette) (text bg gray a b c d e : String)
    (ht : dictLookup p "text" = some text)
    (hbg : dictLookup p "background" = some bg)
    (hgr : dictLookup p "gray" = some gray)
    (ha : dictLookup p "a" = some a) (hb : dictLookup p "b" = some b)
    (hc : dictLookup p "c" = some c) (hd : dictLookup p "d" = some d)
    (he : dictLookup p "e" = some e) :
    ∃ rc, _build_rcparams p = some rc ∧
      dictLookup rc "axes.grid" = some (RcValue.bool true) ∧
      dictLookup rc "grid.color" = some (RcValue.str text) ∧
      dictLookup rc "grid.alpha" = some (RcValue.num 0.30) ∧
      dictLookup rc "grid.linestyle" = some (RcValue.str "-") ∧
      dictLookup rc "grid.linewidth" = some (RcValue.num 0.8) ∧
      dictLookup rc "axes.spines.top" = some (RcValue.bool false) ∧
      dictLookup rc "axes.spines.right" = some (RcValue.bool false) ∧
      dictLookup rc "lines.linewidth" = some (RcValue.num 2.0) ∧
      dictLookup rc "lines.markersize" = some (RcValue.num 6) ∧
      dictLookup rc "axes.prop_cycle" = some (RcValue.cycler [a, b, c, d, e]) := by
  refine ⟨buildRc text bg gray a b c d e, ?_, ?_, ?_, ?_, ?_, ?_, ?_, ?_, ?_, ?_, ?_⟩
  · simp [_build_rcparams, ht, hbg, hgr, ha, hb, hc, hd, he]
  all_goals rw [buildRc_explicit]
  all_goals norm_num
  all_goals simp [rcExplicit, dictLookup]

/-- C4 witness at the modelled "light" palette. -/
theorem build_rcparams_styles_witness :
    dictLookup lightColors "text" = some "#222222" ∧
    (∃ rc, _build_rcparams lightColors = some rc ∧
      dictLookup rc "axes.grid" = some (RcValue.bool true) ∧
      dictLookup rc "grid.color" = some (RcValue.str "#222222") ∧
      dictLookup rc "grid.alpha" = some (RcValue.num 0.30) ∧
      dictLookup rc "grid.linestyle" = some (RcValue.str "-") ∧
      dictLookup rc "grid.linewidth" = some (RcValue.num 0.8) ∧
      dictLookup rc "axes.spines.top" = some (RcValue.bool false) ∧
      dictLookup rc "axes.spines.right" = some (RcValue.bool false) ∧
      dictLookup rc "lines.linewidth" = some (RcValue.num 2.0) ∧
      dictLookup rc "lines.markersize" = some (RcValue.num 6) ∧
      dictLookup rc "axes.prop_cycle" = some
        (RcValue.cycler ["#1f77b4", "#ff7f0e", "#2ca02c", "#d62728", "#9467bd"])) :=
  ⟨by simp [lightColors, dictLookup],
   build_rcparams_styles lightColors "#222222" "#ffffff" "#888888"
     "#1f77b4" "#ff7f0e" "#2ca02c" "#d62728" "#9467bd"
     (by simp [lightColors, dictLookup]) (by simp [lightColors, dictLookup])
     (by simp [lightColors, dictLookup]) (by simp [lightColors, dictLookup])
     (by simp [lightColors, dictLookup]) (by simp [lightColors, dictLookup])
     (by simp [lightColors, dictLookup]) (by simp [lightColors, dictLookup])⟩

/-! ### C5: load-time failure of the whole registry -/

theorem build_none_of_missing (p : Palette) (k : String)
    (hk : k ∈ requiredRoleKeys) (h : dictLookup p k = none) :
    _build_rcparams p = none := by
  simp only [requiredRoleKeys, List.mem_cons, List.mem_singleton,
    List.not_mem_nil, or_false] at hk
  rcases hk with hk | hk | hk | hk | hk | hk | hk | hk <;> subst hk <;>
    unfold _build_rcparams <;> rw [h]
  · rfl
  · cases dictLookup p "text" <;> rfl
  · cases dictLookup p "text" <;> cases dictLookup p "background" <;> rfl
  · cases dictLookup p "text" <;> cases dictLookup p "background" <;>
      cases dictLookup p "gray" <;> rfl
  · cases dictLookup p "text" <;> cases dictLookup p "background" <;>
      cases dictLookup p "gray" <;> cases dictLookup p "a" <;> rfl
  · cases dictLookup p "text" <;> cases dictLookup p "background" <;>
      cases dictLookup p "gray" <;> cases dictLookup p "a" <;>
      cases dictLookup p "b" <;> rfl
  · cases dictLookup p "text" <;> cases dictLookup p "background" <;>
      cases dictLookup p "gray" <;> cases dictLookup p "a" <;>
      cases dictLookup p "b" <;> cases dictLookup p "c" <;> rfl
  · cases dictLookup p "text" <;> cases dictLookup p "background" <;>
      cases dictLookup p "gray" <;> cases dictLookup p "a" <;>
      cases dictLookup p "b" <;> cases dictLookup p "c" <;>
      cases dictLookup p "d" <;> rfl

theorem build_isSome_iff (p : Palette) :
    (_build_rcparams p).isSome = true ↔
      ∀ k ∈ requiredRoleKeys, (dictLookup p k).isSome = true := by
  constructor
  · intro h k hk
    cases hcase : dictLookup p k with
    | some v => simp
    | none =>
        rw [build_none_of_missing p k hk hcase] at h
        simp at h
  · intro h
    have ht := (Option.isSome_iff_exists).mp (h "text" (by simp [requiredRoleKeys]))
    have hbg := (Option.isSome_iff_exists).mp (h "background" (by simp [requiredRoleKeys]))
    have hgr := (Option.isSome_iff_exists).mp (h "gray" (by simp [requiredRoleKeys]))
    have ha := (Option.isSome_iff_exists).mp (h "a" (by simp [requiredRoleKeys]))
    have hb := (Option.isSome_iff_exists).mp (h "b" (by simp [requiredRoleKeys]))
    have hc := (Option.isSome_iff_exists).mp (h "c" (by simp [requiredRoleKeys]))
    have hd := (Option.isSome_iff_exists).mp (h "d" (by simp [requiredRoleKeys]))
    have he := (Option.isSome_iff_exists).mp (h "e" (by simp [requiredRoleKeys]))
    obtain ⟨text, ht⟩ := ht
    obtain ⟨bg, hbg⟩ := hbg
    obtain ⟨gray, hgr⟩ := hgr
    obtain ⟨a, ha⟩ := ha
    obtain ⟨b, hb⟩ := hb
    obtain ⟨c, hc⟩ := hc
    obtain ⟨d, hd⟩ := hd
    obtain ⟨e, he⟩ := he
    simp [_build_rcparams, ht, hbg, hgr, ha, hb, hc, hd, he]

theorem loadAux_isSome_iff (configs : List (String × Palette)) :
    ∀ acc, (loadAux configs acc).isSome = true ↔
      ∀ np ∈ configs, (_build_rcparams np.2).isSome = true := by
  induction configs with
  | nil =>
      intro acc
      simp [loadAux]
  | cons np rest ih =>
      intro acc
      obtain ⟨n, p⟩ := np
      cases hb : _build_rcparams p with
      | none => simp [loadAux, hb]
      | some rc => simp [loadAux, hb, ih]

/-- C5: registry construction fails as a whole — producing no registry at
all, hence no partial registry — exactly when some palette is missing one
of the required role keys; when every palette has every required key the
construction (and each per-theme translation) cannot fail. -/
theorem load_themes_total_iff (configs : List (String × Palette)) :
    (load_themes configs).isSome = true ↔
      ∀ np ∈ configs, ∀ k ∈ requiredRoleKeys, (dictLookup np.2 k).isSome = true := by
  rw [load_themes, loadAux_isSome_iff configs []]
  constructor
  · intro h np hnp
    exact (build_isSome_iff np.2).mp (h np hnp)
  · intro h np hnp
    exact (build_isSome_iff np.2).mpr (h np hnp)

/-! ### C2: `use` -/

theorem get_ok_iff (name : String) (t : Theme) :
    get name = Except.ok t ↔ dictLookup _DEFAULT_THEMES name = some t := by
  cases h : dictLookup _DEFAULT_THEMES name <;> simp [get, getR, h]

/-- C2: for a valid name, `use(name)` merges the theme's entire
style-configuration into the global configuration — afterwards every key
of the theme's configuration holds the theme's value and every other key
is unchanged — and returns exactly the theme `get(name)` returns; for an
absent name the `KeyError` propagates and the process state (registry and
global configuration alike) is unchanged. -/
theorem use_merges_theme_into_global (g : RcParams) (name : String) :
    (∀ t, get name = Except.ok t →
      use g name = Except.ok (dictUpdate g t.rc, t) ∧
      (∀ k v, dictLookup t.rc k = some v →
        dictLookup (dictUpdate g t.rc) k = some v) ∧
      (∀ k, dictLookup t.rc k = none →
        dictLookup (dictUpdate g t.rc) k = dictLookup g k)) ∧
    (∀ e, get name = Except.error e →
      use g name = Except.error e ∧
      runOp (PState.mk _DEFAULT_THEMES g) (ApiOp.useOp name) =
        PState.mk _DEFAULT_THEMES g) := by
  constructor
  · intro t h
    have hl := (get_ok_iff name t).mp h
    have hnd := (default_theme_wf name t hl).2.2
    refine ⟨?_, ?_, ?_⟩
    · simp [use, useR, show getR _DEFAULT_THEMES name = Except.ok t from h]
    · intro k v hkv
      exact dictLookup_dictUpdate_of_some g t.rc k v hnd hkv
    · intro k hk
      exact dictLookup_dictUpdate_of_none g t.rc k hk
  · intro e h
    have hu : useR _DEFAULT_THEMES g name = Except.error e := by
      simp [useR, show getR _DEFAULT_THEMES name = Except.error e from h]
    exact ⟨hu, by simp [runOp, hu]⟩

/-- C2 witness: applying "dark" to an empty global configuration, and a
concrete merged key. -/
theorem use_merges_theme_into_global_witness :
    use [] "dark" = Except.ok (dictUpdate [] darkThemeVal.rc, darkThemeVal) ∧
    dictLookup (dictUpdate [] darkThemeVal.rc) "figure.facecolor" =
      some (RcValue.str "#111111") := by
  have hget : get "dark" = Except.ok darkThemeVal := by
    simp [get, getR, lookup_dark]
  have h := (use_merges_theme_into_global [] "dark").1 darkThemeVal hget
  refine ⟨h.1, h.2.1 "figure.facecolor" (RcValue.str "#111111") ?_⟩
  simp [darkThemeVal, buildRc_explicit, rcExplicit, dictLookup]

/-! ### C3: `context` -/

theorem dictUpdate_nil_lookup {α : Type} (m : List (String × α))
    (hnd : (dictKeys m).Nodup) (k : String) :
    dictLookup (dictUpdate [] m) k = dictLookup m k := by
  cases h : dictLookup m k with
  | none =>
      rw [dictLookup_dictUpdate_of_none _ _ _ h]
      simp [dictLookup]
  | some v => rw [dictLookup_dictUpdate_of_some _ _ _ _ hnd h]

/-- C3: for a valid theme name, `context(name)` applies the theme's
configuration for the duration of the scope (inside the scope every key
of the theme's configuration holds the theme's value) and restores the
prior global configuration on exit, whether the body finishes normally or
with an error (the body's outcome `out.2` is arbitrary and is propagated
unchanged): every key of the prior configuration is restored to its prior
value, and — given that the body respects matplotlib's fixed key universe
(it introduces no key absent from the prior configuration) — the final
configuration equals the prior one at every key. -/
theorem context_applies_and_restores {ε α : Type} (g : RcParams)
    (name : String) (t : Theme) (body : RcParams → RcParams × Except ε α)
    (hget : get name = Except.ok t) (hnd : (dictKeys g).Nodup) :
    ∃ out, context g name body = Except.ok out ∧
      out.2 = (body (dictUpdate g t.rc)).2 ∧
      (∀ k v, dictLookup t.rc k = some v →
        dictLookup (dictUpdate g t.rc) k = some v) ∧
      (∀ k v, dictLookup g k = some v → dictLookup out.1 k = some v) ∧
      ((∀ k, dictLookup g k = none →
          dictLookup (body (dictUpdate g t.rc)).1 k = none) →
        ∀ k, dictLookup out.1 k = dictLookup g k) := by
  have hl := (get_ok_iff name t).mp hget
  have hndrc := (default_theme_wf name t hl).2.2
  refine ⟨(dictUpdate (body (dictUpdate g t.rc)).1 g, (body (dictUpdate g t.rc)).2),
    ?_, rfl, ?_, ?_, ?_⟩
  · simp [context, contextR, show getR _DEFAULT_THEMES name = Except.ok t from hget]
  · intro k v hkv
    exact dictLookup_dictUpdate_of_some g t.rc k v hndrc hkv
  · intro k v hkv
    exact dictLookup_dictUpdate_of_some _ g k v hnd hkv
  · intro hkeys k
    cases hk : dictLookup g k with
    | none =>
        rw [dictLookup_dictUpdate_of_none _ _ _ hk]
        exact hkeys k hk
    | some v =>
        rw [dictLookup_dictUpdate_of_some _ _ _ _ hnd hk]

/-- C3 witness: scoping "light" over a one-key global configuration with
an identity body. -/
theorem context_applies_and_restores_witness :
    get "light" = Except.ok lightThemeVal ∧
    (dictKeys [("figure.facecolor", RcValue.str "#000000")]).Nodup ∧
    ∃ out, context [("figure.facecolor", RcValue.str "#000000")] "light"
        (fun s => (s, Except.ok ())) = Except.ok (out : RcParams × Except Unit Unit) ∧
      out.2 = ((fun (s : RcParams) => (s, (Except.ok () : Except Unit Unit)))
        (dictUpdate [("figure.facecolor", RcValue.str "#000000")] lightThemeVal.rc)).2 ∧
      (∀ k v, dictLookup lightThemeVal.rc k = some v →
        dictLookup (dictUpdate [("figure.facecolor", RcValue.str "#000000")]
          lightThemeVal.rc) k = some v) ∧
      (∀ k v, dictLookup [("figure.facecolor", RcValue.str "#000000")] k = some v →
        dictLookup out.1 k = some v) ∧
      ((∀ k, dictLookup [("figure.facecolor", RcValue.str "#000000")] k = none →
          dictLookup ((fun (s : RcParams) => (s, (Except.ok () : Except Unit Unit)))
            (dictUpdate [("figure.facecolor", RcValue.str "#000000")]
              lightThemeVal.rc)).1 k = none) →
        ∀ k, dictLookup out.1 k =
          dictLookup [("figure.facecolor", RcValue.str "#000000")] k) := by
  have hget : get "light" = Except.ok lightThemeVal := by
    simp [get, getR, lookup_light]
  exact ⟨hget, by simp [dictKeys],
    context_applies_and_restores [("figure.facecolor", RcValue.str "#000000")]
      "light" lightThemeVal (fun s => (s, Except.ok ())) hget (by simp [dictKeys])⟩

/-! ### C6 and C10: `iter_use` -/

theorem traceOf_length (g : RcParams) (ns : List String) :
    (traceOf g ns).length = ns.length := by
  induction ns generalizing g with
  | nil => simp [traceOf]
  | cons n rest ih => simp [traceOf, ih]

theorem traceOf_get (g : RcParams) (ns : List String) (i : Nat)
    (hi : i < (traceOf g ns).length) (hi' : i < ns.length) :
    (traceOf g ns).get ⟨i, hi⟩ =
      (stateAfter g (ns.take (i + 1)), ns.get ⟨i, hi'⟩,
        storedTheme (ns.get ⟨i, hi'⟩)) := by
  induction ns generalizing g i with
  | nil => simp at hi'
  | cons n rest ih =>
      cases i with
      | zero => simp [traceOf, stateAfter]
      | succ j =>
          have hj' : j < rest.length := by simpa using hi'
          have hj : j < (traceOf (dictUpdate g (storedTheme n).rc) rest).length := by
            rw [traceOf_length]
            exact hj'
          simpa [traceOf, stateAfter]
            using ih (dictUpdate g (storedTheme n).rc) j hj hj'

theorem iter_use_runR_all_valid (g : RcParams) (ns : List String)
    (hv : ∀ n ∈ ns, (dictLookup _DEFAULT_THEMES n).isSome = true) :
    iter_use_runR _DEFAULT_THEMES g ns = (traceOf g ns, stateAfter g ns, none) := by
  induction ns generalizing g with
  | nil => simp [iter_use_runR, traceOf, stateAfter]
  | cons n rest ih =>
      obtain ⟨t, ht⟩ := Option.isSome_iff_exists.mp (hv n (by simp))
      have hst := storedTheme_eq n t ht
      have huse : useR _DEFAULT_THEMES g n = Except.ok (dictUpdate g t.rc, t) := by
        simp [useR, getR, ht]
      simp only [iter_use_runR, huse]
      rw [ih (dictUpdate g t.rc) (fun m hm => hv m (by simp [hm]))]
      simp [traceOf, stateAfter, hst]

/-- C6: iterating `iter_use(names)` applies the themes globally in
exactly the given order; each yielded element carries the name, the
registry's stored theme for it, and the global state at the yield — the
state with exactly the themes up to and including that one applied, the
later ones not yet (so stopping after `i + 1` yields leaves the global
configuration at `stateAfter g (ns.take (i + 1))`); omitted `names`
iterates `available()` in registry order (`ns = names.getD available`);
after completion the global configuration is `stateAfter g ns`, the state
the last-applied theme left. -/
theorem iter_use_applies_in_order (g : RcParams) (names : Option (List String))
    (ns : List String) (hns : ns = names.getD available)
    (hv : ∀ n ∈ ns, (dictLookup _DEFAULT_THEMES n).isSome = true) :
    ∃ tr, iter_use_run g names = (tr, stateAfter g ns, none) ∧
      tr.length = ns.length ∧
      (∀ i (hi : i < tr.length) (hi' : i < ns.length),
        tr.get ⟨i, hi⟩ = (stateAfter g (ns.take (i + 1)), ns.get ⟨i, hi'⟩,
          storedTheme (ns.get ⟨i, hi'⟩))) := by
  subst hns
  refine ⟨traceOf g (names.getD available), ?_, traceOf_length _ _, ?_⟩
  · rw [show iter_use_run g names =
        iter_use_runR _DEFAULT_THEMES g (names.getD available) from rfl,
      iter_use_runR_all_valid g _ hv]
  · intro i hi hi'
    exact traceOf_get _ _ i hi hi'

/-- C6 witness at `names = ["light", "dark"]` over an empty prior global
configuration. -/
theorem iter_use_applies_in_order_witness :
    ∃ tr, iter_use_run [] (some ["light", "dark"]) =
        (tr, stateAfter [] ["light", "dark"], none) ∧
      tr.length = (["light", "dark"] : List String).length ∧
      (∀ i (hi : i < tr.length)
          (hi' : i < (["light", "dark"] : List String).length),
        tr.get ⟨i, hi⟩ =
          (stateAfter [] ((["light", "dark"] : List String).take (i + 1)),
            (["light", "dark"] : List String).get ⟨i, hi'⟩,
            storedTheme ((["light", "dark"] : List String).get ⟨i, hi'⟩))) :=
  iter_use_applies_in_order [] (some ["light", "dark"]) ["light", "dark"] rfl
    (by simp [lookup_light, lookup_dark])

theorem storeGet_storeSet_ne (s : Store) (r r₀ : Nat) (k : String)
    (v : RcValue) (hne : r₀ ≠ r) :
    storeGet (storeSet s r k v) r₀ = storeGet s r₀ := by
  induction s generalizing r r₀ with
  | nil => simp [storeSet]
  | cons rc tail ih =>
      cases r with
      | zero =>
          cases r₀ with
          | zero => exact absurd rfl hne
          | succ j => simp [storeSet, storeGet]
      | succ rr =>
          cases r₀ with
          | zero => simp [storeSet, storeGet]
          | succ j =>
              simpa [storeSet, storeGet]
                using ih rr j (fun hh => hne (by rw [hh]))

theorem storeGet_storeSet_self (s : Store) (r : Nat) (k : String)
    (v : RcValue) (rc : RcParams) (h : storeGet s r = some rc) :
    storeGet (storeSet s r k v) r = some (dictSet rc k v) := by
  induction s generalizing r with
  | nil => simp [storeGet] at h
  | cons rc0 tail ih =>
      cases r with
      | zero =>
          simp only [storeGet, List.get?] at h
          rw [Option.some.injEq] at h
          subst h
          simp [storeSet, storeGet]
      | succ j =>
          simpa [storeSet, storeGet]
            using ih j (by simpa [storeGet] using h)

/-- C7: `to_rcparams(name)` allocates a fresh object (reference `s.length`,
distinct from every existing reference, in particular from any reference
holding the registry's stored configuration) whose contents equal the
stored theme's configuration at every key; mutating any key of the
returned object changes only that object — every previously existing
object is untouched. -/
theorem to_rcparams_isolated_copy (s : Store) (name : String) (t : Theme)
    (hget : get name = Except.ok t) :
    ∃ s' r, to_rcparams s name = Except.ok (s', r) ∧
      r = s.length ∧
      storeGet s' r = some (dictUpdate [] t.rc) ∧
      (∀ k, dictLookup (dictUpdate [] t.rc) k = dictLookup t.rc k) ∧
      (∀ k v r₀, r₀ < s.length →
        storeGet (storeSet s' r k v) r₀ = storeGet s' r₀) ∧
      (∀ k v, storeGet (storeSet s' r k v) r =
        some (dictSet (dictUpdate [] t.rc) k v)) := by
  have hl := (get_ok_iff name t).mp hget
  have hnd := (default_theme_wf name t hl).2.2
  have hfresh : storeGet (s ++ [dictUpdate [] t.rc]) s.length =
      some (dictUpdate [] t.rc) := List.get?_concat_length s _
  refine ⟨s ++ [dictUpdate [] t.rc], s.length, ?_, rfl, hfresh, ?_, ?_, ?_⟩
  · simp [to_rcparams, to_rcparamsR,
      show getR _DEFAULT_THEMES name = Except.ok t from hget]
  · intro k
    exact dictUpdate_nil_lookup t.rc hnd k
  · intro k v r₀ hlt
    exact storeGet_storeSet_ne _ _ _ _ _ (by omega)
  · intro k v
    exact storeGet_storeSet_self _ _ _ _ _ hfresh

/-- C7 witness: copying "dark" out of an empty store and mutating the
copy's `figure.facecolor`. -/
theorem to_rcparams_isolated_copy_witness :
    ∃ s' r, to_rcparams [] "dark" = Except.ok (s', r) ∧
      r = ([] : Store).length ∧
      storeGet s' r = some (dictUpdate [] darkThemeVal.rc) ∧
      (∀ k, dictLookup (dictUpdate [] darkThemeVal.rc) k =
        dictLookup darkThemeVal.rc k) ∧
      (∀ k v r₀, r₀ < ([] : Store).length →
        storeGet (storeSet s' r k v) r₀ = storeGet s' r₀) ∧
      (∀ k v, storeGet (storeSet s' r k v) r =
        some (dictSet (dictUpdate [] darkThemeVal.rc) k v)) :=
  to_rcparams_isolated_copy [] "dark" darkThemeVal
    (by simp [get, getR, lookup_dark])

/-! ### C8: `available` -/

/-- C8: `available()` (a pure, effect-free function of the registry)
returns exactly the theme names present in the bundled data file — no
name missing, none extra, no duplicates — in the data file's order. -/
theorem available_matches_data_file :
    available = default_style.map Prod.fst ∧ available.Nodup := by
  constructor
  · rw [available_eq]
    rfl
  · rw [available_eq]
    decide

/-! ### C9: immutability of the registry under public operations -/

theorem runOp_reg (st : PState) (op : ApiOp) : (runOp st op).reg = st.reg := by
  cases op with
  | availableOp => rfl
  | getOp n => rfl
  | useOp n =>
      cases h : useR st.reg st.g n with
      | error e => simp [runOp, h]
      | ok p => simp [runOp, h]
  | iterUseOp ns => rfl
  | contextOp n body =>
      cases h : contextR st.reg st.g n body with
      | error e => simp [runOp, h]
      | ok p => simp [runOp, h]
  | toRcparamsOp n => rfl

/-- C9: `Theme` values are frozen records that no public operation can
reach to mutate: running any sequence of public operations (`available`,
`get`, `use`, `iter_use`, `context` with an arbitrary body, `to_rcparams`)
leaves the registry — and hence every stored theme's name, colors palette
and derived style-configuration — exactly as it was. -/
theorem public_ops_preserve_registry (st : PState) (ops : List ApiOp) :
    (runOps st ops).reg = st.reg ∧
    (∀ n, dictLookup (runOps st ops).reg n = dictLookup st.reg n) := by
  have h : ∀ st', (runOps st' ops).reg = st'.reg := by
    induction ops with
    | nil => intro st'; rfl
    | cons op rest ih =>
        intro st'
        show (runOps (runOp st' op) rest).reg = st'.reg
        rw [ih (runOp st' op), runOp_reg]
  exact ⟨h st, fun n => by rw [h st]⟩

end Namuplot
